import Mathlib

/-!
Verification of the commandORM query builder against its specification.

The development shallowly embeds the two backends of the library:

* the SQL backend (`TableQueryBuilder`, file `TableQueryBuilder.js`):
  a fluent builder that caches SQL clause strings in `this.sql`, compiles
  them into a statement on each terminal call and runs the statement
  through a pooled connection;
* the flat-file backend (`CSVQueryBuilder` / `CSVDatabase`, file
  `CSVDatabase.js`): the same fluent vocabulary executed by
  read-filter-rewrite operations over an in-memory image of a delimited
  text file.

JavaScript values are modelled by `JSVal` (numbers idealized as integers:
no claim below depends on fractional arithmetic), objects by association
lists, and `undefined` by `Option`. The external libraries are modelled
as the specification directs: `pg-format` by `quoteIdent` / `literal`
(simple identifiers stay bare, others are double quoted; literals are
single quoted with doubling; an array argument is rendered element-wise
and joined with a comma and a space), and the csv parse/stringify pair by
direct projection between header-ordered value rows and objects. The
external relational server and the connection pool are out of scope; a
terminal call receives the catalog answers (`schemaData`, `primaryKeys`)
and a query oracle as parameters.
-/

namespace CommandORM

/-- Model of a JavaScript primitive value: `null`, booleans, numbers
(idealized as integers) and strings. `undefined` is modelled as `Option.none`
at the use sites. -/
inductive JSVal where
  | null
  | bool (b : Bool)
  | num (n : Int)
  | str (s : String)
deriving Repr, DecidableEq, Inhabited

/-- JavaScript truthiness of a value: `null`, `false`, `0` and the empty
string are falsy, everything else is truthy. -/
def truthy : JSVal → Bool
  | .null => false
  | .bool b => b
  | .num n => n != 0
  | .str s => s != ""

/-- Truthiness of a possibly-`undefined` value (`undefined` is falsy). -/
def truthyOpt : Option JSVal → Bool
  | none => false
  | some v => truthy v

/-- A JavaScript object: an association list from property names to values,
in insertion order (JS objects never hold the same key twice). -/
abbrev JsObj := List (String × JSVal)

/-- Property read `o[k]`: the value, or `none` for `undefined`. -/
def getProp (o : JsObj) (k : String) : Option JSVal :=
  List.lookup k o

/-- `Object.keys(o)`, in insertion order. -/
def objKeys (o : JsObj) : List String :=
  o.map (·.1)

/-- The JavaScript expression `a || b` for a possibly-`undefined` `a`:
`a` when truthy, otherwise `b`. -/
def jsOr (a : Option JSVal) (b : JSVal) : JSVal :=
  match a with
  | some v => if truthy v then v else b
  | none => b

/-- An argument as the variadic builder methods receive it: a primitive
value or a JavaScript array of primitive values (the `IN`-list shape). -/
inductive JSArg where
  | val (v : JSVal)
  | arrv (vs : List JSVal)
deriving Repr, DecidableEq, Inhabited

/-! ## Character-level string helpers

The JavaScript string primitives the source uses (`trim`, `split`,
`toLowerCase`, global replace, the `<` comparison) are modelled on the
character list of the string, by code point. -/

/-- The whitespace characters `trim` removes (the ASCII ones suffice for
the claims). -/
def isJsWs (c : Char) : Bool :=
  c == ' ' || c == '\t' || c == '\n' || c == '\r'

/-- JavaScript `trim()`. -/
def strTrim (s : String) : String :=
  String.mk (((s.data.dropWhile isJsWs).reverse.dropWhile isJsWs).reverse)

/-- Split a character list at every occurrence of a separator. -/
def splitChar (sep : Char) : List Char → List (List Char)
  | [] => [[]]
  | c :: cs =>
    let r := splitChar sep cs
    if c == sep then [] :: r
    else
      match r with
      | h :: t => (c :: h) :: t
      | [] => [[c]]

/-- JavaScript `split(".")`. -/
def strSplitDot (s : String) : List String :=
  (splitChar '.' s.data).map String.mk

/-- JavaScript `toLowerCase()` (ASCII). -/
def strToLower (s : String) : String :=
  String.mk (s.data.map Char.toLower)

/-- Double every occurrence of a quote character (the global-replace
escaping of the pg-format model). -/
def escapeDouble (q : Char) (s : String) : String :=
  String.mk (s.data.foldr (fun c acc => if c == q then q :: q :: acc else c :: acc) [])

/-- Lexicographic comparison of character lists by code point: the
JavaScript `<` on strings (UTF-16 unit order agrees with code-point order
on the values the claims exercise). -/
def charListLt : List Char → List Char → Bool
  | [], [] => false
  | [], _ :: _ => true
  | _ :: _, [] => false
  | a :: as, b :: bs =>
    if a.toNat < b.toNat then true
    else if b.toNat < a.toNat then false
    else charListLt as bs

/-- JavaScript `a < b` on strings. -/
def strLtB (a b : String) : Bool :=
  charListLt a.data b.data

/-! ## Model of the pg-format library (external dependency)

`%I` quotes an SQL identifier (bare when it is a simple lower-case
identifier, double quoted with doubling otherwise; the reserved-word list
of the real library is not modelled, no claim depends on it), `%L` quotes
a literal, `%s` inserts the raw string; an array argument is rendered
element-wise and joined with a comma and a space. -/

/-- A simple identifier for `%I`: lower-case letter or underscore first,
then lower-case letters, digits, underscores or dollar signs. -/
def isSimpleIdent (s : String) : Bool :=
  s ≠ "" &&
    (s.data.head?.elim false fun c => c.isLower || c == '_') &&
    s.data.all fun c => c.isLower || c.isDigit || c == '_' || c == '$'

/-- pg-format `%I` on a string. -/
def quoteIdent (s : String) : String :=
  if isSimpleIdent s then s else "\"" ++ escapeDouble '\"' s ++ "\""

/-- pg-format `%I` on a possibly-`undefined` argument: the real library
throws on `null`/`undefined` identifiers. -/
def quoteIdentOpt : Option String → Except String String
  | none => .error "SQL identifier cannot be null or undefined"
  | some s => .ok (quoteIdent s)

/-- pg-format `%L` on a primitive value. -/
def literal : JSVal → String
  | .null => "NULL"
  | .bool b => if b then "'t'" else "'f'"
  | .num n => toString n
  | .str s => "'" ++ escapeDouble '\'' s ++ "'"

/-- pg-format `%L` on an array argument: elements joined by a comma and
a space. -/
def literalList (vs : List JSVal) : String :=
  String.intercalate ", " (vs.map literal)

/-- pg-format `%L` on a builder argument. -/
def literalArg : JSArg → String
  | .val v => literal v
  | .arrv vs => literalList vs

/-- pg-format `%s` on a primitive value (JavaScript string coercion). -/
def rawString : JSVal → String
  | .null => "null"
  | .bool b => if b then "true" else "false"
  | .num n => toString n
  | .str s => s

/-! ## validateSQLName (validation module of the SQL backend) -/

/-- The identifier rule `^[a-zA-Z_][a-zA-Z0-9_]*$` of `validateSQLName`. -/
def isValidSQLName (s : String) : Bool :=
  s ≠ "" &&
    (s.data.head?.elim false fun c => c.isAlpha || c == '_') &&
    s.data.all fun c => c.isAlpha || c.isDigit || c == '_'

/-- Error text thrown by `validateSQLName`. -/
def nameErrMsg : String :=
  "Column/Table names can consist of only upper or lower cased letters, underscores and numbers"

/-- `validateSQLName(...args)`: every argument must satisfy the identifier
rule, else the call throws. -/
def validateSQLName (args : List String) : Except String Unit :=
  if args.all isValidSQLName then .ok () else .error nameErrMsg

/-! ## The SQL backend builder state -/

/-- The `this.sql` clause cache of `TableQueryBuilder`, one field per key in
the constructor, in insertion order (`delete`, `select`, `join`, `on`,
`where`, `order`, `desc`, `limit`, `returning`). -/
structure SqlClauses where
  sqlDelete : String
  sqlSelect : String
  sqlJoin : String
  sqlOn : String
  sqlWhere : String
  sqlOrder : String
  sqlDesc : String
  sqlLimit : String
  sqlReturning : String
deriving Repr, DecidableEq

/-- The clause cache as the constructor initializes it: every entry `""`. -/
def emptyClauses : SqlClauses :=
  ⟨"", "", "", "", "", "", "", "", ""⟩

/-- `Object.values(this.sql)` in key insertion order. -/
def clauseValues (c : SqlClauses) : List String :=
  [c.sqlDelete, c.sqlSelect, c.sqlJoin, c.sqlOn, c.sqlWhere,
    c.sqlOrder, c.sqlDesc, c.sqlLimit, c.sqlReturning]

/-- State of a `TableQueryBuilder` handle: the table name, the clause
cache, and the column lists `this._select` / `this._order` kept beside it.
(The base-class initial values of `_select` / `_order` are never read
before `select` / `orderBy` assign them on the paths the claims cover.) -/
structure TQB where
  tableName : String
  sql : SqlClauses
  selectCols : List String
  orderCols : List String
deriving Repr, DecidableEq

/-- A fresh handle, as `model.table(name)` constructs it. -/
def freshTQB (tableName : String) : TQB :=
  { tableName, sql := emptyClauses, selectCols := [], orderCols := [] }

/-- Builder-method results: JavaScript exceptions are modelled by an error
value carrying the message and the state of the handle at the throw (the
guarded methods throw before mutating, so that state is the input state). -/
abbrev BuilderRes := Except (String × TQB) TQB

/-- `select(...columns)`: no argument selects `*`; otherwise the columns
with any literal `"*"` filtered out; caches the `SELECT` clause. -/
def selectFn (columns : List String) (s : TQB) : TQB :=
  let sel := if columns.length ≠ 0 then columns.filter (· ≠ "*") else ["*"]
  { s with
    selectCols := sel
    sql := { s.sql with
      sqlSelect :=
        "SELECT " ++ String.intercalate ", " sel ++ " FROM " ++ quoteIdent s.tableName } }

/-- The comparison operators accepted by `where` and `on`. -/
def sqlOperators : List String :=
  ["=", "!=", "<>", ">=", "<=", "<", ">"]

/-- Message of the `where` fallthrough branch. -/
def invalidWhereMsg : String := "Invalid arguments for where method"

/-- Calling `.trim()` on a non-string throws a TypeError in JavaScript. -/
def trimTypeErrMsg : String := ".trim is not a function"

/-- The clause text computed by `where(...args)` from the four accepted
argument shapes (operator comparison, `IN` list, equality with a string or
number, null test), or the thrown message. The branches mirror the source
in order; a shape that calls `.trim()` on a non-string first argument
throws a TypeError. -/
def whereClause : List JSArg → Except String String
  | [a0, .val (.str op), _a2] =>
    if op ∈ sqlOperators then
      match a0, _a2 with
      | .val (.str c), a2 =>
          .ok ("WHERE " ++ quoteIdent (strTrim c) ++ " " ++ op ++ " " ++ literalArg a2)
      | _, _ => .error trimTypeErrMsg
    else .error invalidWhereMsg
  | [a0, .arrv vs] =>
    (match a0 with
      | .val (.str c) =>
          .ok ("WHERE " ++ quoteIdent (strTrim c) ++ " IN (" ++ literalList vs ++ ")")
      | _ => .error trimTypeErrMsg)
  | [.val (.str c), .val (.str t)] =>
      .ok ("WHERE " ++ quoteIdent (strTrim c) ++ " = " ++ literal (.str t))
  | [.val (.str c), .val (.num n)] =>
      .ok ("WHERE " ++ quoteIdent (strTrim c) ++ " = " ++ literal (.num n))
  | [.val (.str c), .val .null] =>
      .ok ("WHERE " ++ quoteIdent c ++ " IS NULL")
  | _ => .error invalidWhereMsg

/-- `where(...args)`: overwrite the cached `WHERE` clause with the clause
computed from the arguments, or rethrow leaving the state unchanged. -/
def whereFn (args : List JSArg) (s : TQB) : BuilderRes :=
  match whereClause args with
  | .ok w => .ok { s with sql := { s.sql with sqlWhere := w } }
  | .error e => .error (e, s)

/-- Message of the `or`-before-`where` guard. -/
def orGuardMsg : String :=
  "You can't call \"or\" method without first calling where method"

/-- Message of the `and`-before-`where` guard. -/
def andGuardMsg : String :=
  "You can't call \"and\" method without first calling where method"

/-- `or(...args)`: guarded by a prior `where`; appends `OR` and the new
predicate (the new clause with its leading `WHERE ` sliced off). -/
def orFn (args : List JSArg) (s : TQB) : BuilderRes :=
  if s.sql.sqlWhere = "" then .error (orGuardMsg, s)
  else
    match whereClause args with
    | .ok w =>
        .ok { s with sql := { s.sql with
          sqlWhere := s.sql.sqlWhere ++ " OR " ++ w.drop 6 } }
    | .error e => .error (e, s)

/-- `and(...args)`: guarded by a prior `where`; appends `AND` and the new
predicate (the new clause with its leading `WHERE ` sliced off). -/
def andFn (args : List JSArg) (s : TQB) : BuilderRes :=
  if s.sql.sqlWhere = "" then .error (andGuardMsg, s)
  else
    match whereClause args with
    | .ok w =>
        .ok { s with sql := { s.sql with
          sqlWhere := s.sql.sqlWhere ++ " AND " ++ w.drop 6 } }
    | .error e => .error (e, s)

/-- The destructuring `args[i]?.trim()?.split(".") ?? []` at the top of
`on`: a missing or null argument yields two `undefined` pieces, a string
is trimmed and split at the first two dots, any other value throws. -/
def parseQual : Option JSArg → Except String (Option String × Option String)
  | none => .ok (none, none)
  | some (.val .null) => .ok (none, none)
  | some (.val (.str s)) =>
      let parts := strSplitDot (strTrim s)
      .ok (parts[0]?, parts[1]?)
  | some _ => .error trimTypeErrMsg

/-- Message of the `on` fallthrough branch. -/
def invalidOnMsg : String := "A join clause must have columns provided"

/-- The clause text computed by `on(...args)`: the same four shapes as
`where`, with identifiers qualified as `table.column`; pg-format throws
on a missing qualifier piece. -/
def onClause (args : List JSArg) : Except String String := do
  let p0 ← parseQual args[0]?
  let p2 ← parseQual args[2]?
  match args with
  | [_a0, .val (.str op), _a2] =>
    if op ∈ sqlOperators then do
      let lt ← quoteIdentOpt p0.1
      let lc ← quoteIdentOpt p0.2
      let rt ← quoteIdentOpt p2.1
      let rc ← quoteIdentOpt p2.2
      .ok ("ON " ++ lt ++ "." ++ lc ++ " " ++ op ++ " " ++ rt ++ "." ++ rc)
    else .error invalidOnMsg
  | [_a0, .arrv vs] => do
      let lt ← quoteIdentOpt p0.1
      let lc ← quoteIdentOpt p0.2
      .ok ("ON " ++ lt ++ "." ++ lc ++ " IN (" ++ literalList vs ++ ")")
  | [.val (.str _), .val (.str t)] => do
      let lt ← quoteIdentOpt p0.1
      let lc ← quoteIdentOpt p0.2
      let parts := strSplitDot (strTrim t)
      let rt ← quoteIdentOpt parts[0]?
      let rc ← quoteIdentOpt parts[1]?
      .ok ("ON " ++ lt ++ "." ++ lc ++ " = " ++ rt ++ "." ++ rc)
  | [.val (.str _), .val (.num n)] => do
      let lt ← quoteIdentOpt p0.1
      let lc ← quoteIdentOpt p0.2
      .ok ("ON " ++ lt ++ "." ++ lc ++ " = " ++ toString n)
  | [.val (.str _), .val .null] => do
      let lt ← quoteIdentOpt p0.1
      let lc ← quoteIdentOpt p0.2
      .ok ("ON " ++ lt ++ "." ++ lc ++ " IS NULL")
  | _ => .error invalidOnMsg

/-- `on(...args)`: overwrite the cached `ON` clause, or rethrow leaving
the state unchanged. -/
def onFn (args : List JSArg) (s : TQB) : BuilderRes :=
  match onClause args with
  | .ok w => .ok { s with sql := { s.sql with sqlOn := w } }
  | .error e => .error (e, s)

/-- Message of the `onOr`-before-`on` guard. -/
def onOrGuardMsg : String :=
  "You can't call \"onOr\" method without first calling \"on\" method"

/-- Message of the `onAnd`-before-`on` guard. -/
def onAndGuardMsg : String :=
  "You can't call \"onAnd\" method without first calling \"on\" method"

/-- `onOr(...args)`: guarded by a prior `on`; appends `OR` and the new
condition (the new clause with its leading `ON ` sliced off). -/
def onOrFn (args : List JSArg) (s : TQB) : BuilderRes :=
  if s.sql.sqlOn = "" then .error (onOrGuardMsg, s)
  else
    match onClause args with
    | .ok w =>
        .ok { s with sql := { s.sql with
          sqlOn := s.sql.sqlOn ++ " OR " ++ w.drop 3 } }
    | .error e => .error (e, s)

/-- `onAnd(...args)`: guarded by a prior `on`; appends `AND` and the new
condition (the new clause with its leading `ON ` sliced off). -/
def onAndFn (args : List JSArg) (s : TQB) : BuilderRes :=
  if s.sql.sqlOn = "" then .error (onAndGuardMsg, s)
  else
    match onClause args with
    | .ok w =>
        .ok { s with sql := { s.sql with
          sqlOn := s.sql.sqlOn ++ " AND " ++ w.drop 3 } }
    | .error e => .error (e, s)

/-- Shared logic of the join methods (`#__join` without the callback form,
which takes a JavaScript function and is exercised by no claim): with
arguments, forward them to `on`; with none, leave the `ON` clause alone. -/
def joinArgsFn (args : List JSArg) (s : TQB) : BuilderRes :=
  if args.length ≠ 0 then onFn args s else .ok s

/-- `innerJoin(table, ...args)`: cache the `INNER JOIN` clause, then
forward the arguments to `on`. -/
def innerJoinFn (table : String) (args : List JSArg) (s : TQB) : BuilderRes :=
  joinArgsFn args
    { s with sql := { s.sql with sqlJoin := "INNER JOIN " ++ quoteIdent table } }

/-- `leftJoin(table, ...args)`: cache the `LEFT JOIN` clause, then forward
the arguments to `on`. -/
def leftJoinFn (table : String) (args : List JSArg) (s : TQB) : BuilderRes :=
  joinArgsFn args
    { s with sql := { s.sql with sqlJoin := "LEFT JOIN " ++ quoteIdent table } }

/-- `rightJoin(table, ...args)`: cache the `RIGHT JOIN` clause, then
forward the arguments to `on`. -/
def rightJoinFn (table : String) (args : List JSArg) (s : TQB) : BuilderRes :=
  joinArgsFn args
    { s with sql := { s.sql with sqlJoin := "RIGHT JOIN " ++ quoteIdent table } }

/-- `returning(...columns)`: cache the `RETURNING` clause (`*` by default,
the named columns with any literal `"*"` filtered out otherwise). -/
def returningFn (columns : List String) (s : TQB) : TQB :=
  let cols := if columns.length ≠ 0 then columns.filter (· ≠ "*") else ["*"]
  { s with sql := { s.sql with
    sqlReturning := "RETURNING " ++ String.intercalate ", " cols } }

/-- `orderBy(...columns)`: record `this._order` (the columns with any
literal `"*"` filtered out) and cache the `ORDER BY` clause, empty when no
column is left. -/
def orderByFn (columns : List String) (s : TQB) : TQB :=
  let ord := if columns.length ≠ 0 then columns.filter (· ≠ "*") else []
  { s with
    orderCols := ord
    sql := { s.sql with
      sqlOrder :=
        if ord.length ≠ 0 then "ORDER BY " ++ String.intercalate ", " ord else "" } }

/-- `desc()`: cache the `DESC` keyword. -/
def descFn (s : TQB) : TQB :=
  { s with sql := { s.sql with sqlDesc := "DESC" } }

/-- `limit(number)`: cache the `LIMIT` clause. -/
def limitFn (number : Int) (s : TQB) : TQB :=
  { s with sql := { s.sql with sqlLimit := "LIMIT " ++ toString number } }

/-! ## Execution model of the SQL backend

`model.getSchemaData` and `model.getPrimaryKeys` are catalog queries
against the external server; a terminal call receives their answers as
parameters, and the statement execution of `#__execute` as an oracle from
statements to row lists. `#__execute` clears every entry of the clause
cache before running the statement, so an error thrown before it leaves
the cache untouched and runs nothing. -/

/-- A row of `information_schema.columns` as `getSchemaData` returns it. -/
structure SchemaColumn where
  column_name : String
  column_default : JSVal
  is_nullable : String
  data_type : String
deriving Repr, DecidableEq

/-- A row of the primary-key catalog query of `getPrimaryKeys`. -/
structure PKColumn where
  column_name : String
  data_type : String
deriving Repr, DecidableEq

/-- The external statement executor: a query oracle. -/
abbrev Exec := String → List JsObj

/-- `#__execute(sql)`: clear every entry of the clause cache, then run the
statement and return its rows. -/
def execClear (oracle : Exec) (s : TQB) (sql : String) : TQB × List JsObj :=
  ({ s with sql := emptyClauses }, oracle sql)

/-- Result of a terminal call returning rows: the handle state and the
rows, or the thrown message with the state at the throw. -/
abbrev TermRes := Except (String × TQB) (TQB × List JsObj)

/-- The statement `get()` compiles: the non-empty clause cache entries in
key order, joined by single spaces, trimmed, terminated by a semicolon. -/
def getSqlString (s : TQB) : String :=
  strTrim (String.intercalate " " ((clauseValues s.sql).filter (· ≠ ""))) ++ ";"

/-- Message of the `get` guard requiring a prior `select`. -/
def noSelectMsg : String := "Columns haven't been selected"

/-- Message of the `get` unknown-column check. -/
def unknownColsMsg (tableName : String) : String :=
  "Some of the selected columns don't exist in the \"" ++ tableName ++ "\" table"

/-- `get()`: requires a cached `SELECT` clause; then, unless a join is
cached or `*` was selected, every selected column must be in the fetched
schema; compiles the cached clauses and executes. -/
def getFn (schemaData : List SchemaColumn) (oracle : Exec) (s : TQB) : TermRes :=
  if s.sql.sqlSelect = "" then .error (noSelectMsg, s)
  else
    let columns := schemaData.map (·.column_name)
    if (!s.selectCols.all (columns.contains ·)) &&
        (s.selectCols.head? != some "*") && (s.sql.sqlJoin == "") then
      .error (unknownColsMsg s.tableName, s)
    else
      .ok (execClear oracle s (getSqlString s))

/-- `delete()`: compiles `DELETE FROM` with the cached `WHERE` and
`RETURNING` clauses and executes. -/
def deleteFn (oracle : Exec) (s : TQB) : TermRes :=
  .ok (execClear oracle s
    ("DELETE FROM " ++ quoteIdent s.tableName ++ " " ++ s.sql.sqlWhere ++ " " ++
      s.sql.sqlReturning ++ ";"))

/-! ## insert / upsert (`#__insert`)

The claims exercise the single-row-object form of `insert` / `upsert`;
`values` is that one row. -/

/-- The schema rows `#__insert` works from: when the row does not supply a
truthy value for every primary key, the primary-key columns are dropped
(the backend will generate them). -/
def workingSchema (primaryKeys : List PKColumn) (schemaData : List SchemaColumn)
    (values : JsObj) : List SchemaColumn :=
  if primaryKeys.any (fun col => !truthyOpt (getProp values col.column_name)) then
    let primaryKeyColumns := primaryKeys.map (·.column_name)
    schemaData.filter (fun col => !primaryKeyColumns.contains col.column_name)
  else schemaData

/-- The mandatory columns of `#__insert`: non-nullable with a falsy
default, among the working schema rows. -/
def mandatoryColumns (schemaData : List SchemaColumn) : List String :=
  (schemaData.filter fun col =>
    col.is_nullable == "NO" && !truthy col.column_default).map (·.column_name)

/-- The compiled value tuple of one inserted row, in working-schema column
order: the supplied value when truthy, the schema default otherwise
(`values[col.column_name] || col.column_default`). -/
def insertRowValues (schemaData : List SchemaColumn) (values : JsObj) : List JSVal :=
  schemaData.map fun col => jsOr (getProp values col.column_name) col.column_default

/-- Message of the `#__insert` unknown-column check. -/
def unknownInsertMsg (tableName : String) : String :=
  "Some of the provided columns don't exist in table \"" ++ tableName ++ "\""

/-- Message of the `#__insert` mandatory-column check (JavaScript renders
the array with commas). -/
def missingMandatoryMsg (mandatory : List String) : String :=
  "Missing mandatory columns: " ++ String.intercalate "," mandatory

/-- The `INSERT INTO ... VALUES ...` statement `#__insert` compiles for
one row. -/
def insertSqlString (tableName : String) (schemaData : List SchemaColumn)
    (values : JsObj) : String :=
  "INSERT INTO " ++ quoteIdent tableName ++ " (" ++
    String.intercalate ", " ((schemaData.map (·.column_name)).map quoteIdent) ++
    ") VALUES (" ++ literalList (insertRowValues schemaData values) ++ ")"

/-- `#__insert(values)` for one row: drop unsupplied primary keys from the
schema, validate the supplied keys, require them known, require every
mandatory column supplied with a truthy value, then compile the insert;
returns the statement with the working schema and the primary keys. -/
def insertCore (tableName : String) (primaryKeys : List PKColumn)
    (schemaData : List SchemaColumn) (values : JsObj) :
    Except String (String × List SchemaColumn × List PKColumn) :=
  let schemaData1 := workingSchema primaryKeys schemaData values
  let columns := schemaData1.map (·.column_name)
  let valueKeys := objKeys values
  match validateSQLName valueKeys with
  | .error e => .error e
  | .ok () =>
    if !valueKeys.all (columns.contains ·) then
      .error (unknownInsertMsg tableName)
    else if !((mandatoryColumns schemaData1).all fun col =>
        valueKeys.contains col && truthyOpt (getProp values col)) then
      .error (missingMandatoryMsg (mandatoryColumns schemaData1))
    else
      .ok (insertSqlString tableName schemaData1 values, schemaData1, primaryKeys)

/-- `insert(values)`: the `#__insert` statement followed by the cached
`RETURNING` clause, executed. -/
def insertFn (primaryKeys : List PKColumn) (schemaData : List SchemaColumn)
    (oracle : Exec) (values : JsObj) (s : TQB) : TermRes :=
  match insertCore s.tableName primaryKeys schemaData values with
  | .error e => .error (e, s)
  | .ok (sql, _, _) => .ok (execClear oracle s (sql ++ " " ++ s.sql.sqlReturning))

/-- The `DO UPDATE SET` pieces of `upsert`, one per non-primary-key column
of the working schema: `col = EXCLUDED.col` when the row supplies a truthy
value for the column, `col = <schema default>` otherwise. -/
def upsertSetPieces (schemaData1 : List SchemaColumn) (primaryKeys : List PKColumn)
    (values : JsObj) : List String :=
  let primaryKeyColumns := primaryKeys.map (·.column_name)
  let columnsToUpdate :=
    schemaData1.filter fun col => !primaryKeyColumns.contains col.column_name
  columnsToUpdate.map fun col =>
    if truthyOpt (getProp values col.column_name) then
      quoteIdent col.column_name ++ " = EXCLUDED." ++ quoteIdent col.column_name
    else
      quoteIdent col.column_name ++ " = " ++ literal col.column_default

/-- The statement `upsert(values)` compiles: with no primary key, exactly
the plain insert statement; otherwise the insert extended with an
`ON CONFLICT` clause on the first primary-key column. -/
def upsertSql (tableName : String) (primaryKeys : List PKColumn)
    (schemaData : List SchemaColumn) (values : JsObj)
    (returningClause : String) : Except String String :=
  match insertCore tableName primaryKeys schemaData values with
  | .error e => .error e
  | .ok (sql, schemaData1, pks) =>
    match pks with
    | [] => .ok (sql ++ " " ++ returningClause)
    | pk0 :: _ =>
      .ok (sql ++ " ON CONFLICT (" ++ quoteIdent pk0.column_name ++
        ") DO UPDATE SET " ++
        String.intercalate ", " (upsertSetPieces schemaData1 primaryKeys values) ++
        " " ++ returningClause)

/-- `upsert(values)`: the compiled upsert statement, executed. -/
def upsertFn (primaryKeys : List PKColumn) (schemaData : List SchemaColumn)
    (oracle : Exec) (values : JsObj) (s : TQB) : TermRes :=
  match upsertSql s.tableName primaryKeys schemaData values s.sql.sqlReturning with
  | .error e => .error (e, s)
  | .ok sql => .ok (execClear oracle s sql)

/-- The `SET` pieces of `update(values)`: one `col = literal` per supplied
entry, with no validation against the schema. -/
def updateSetPieces (values : JsObj) : List String :=
  values.map fun kv => quoteIdent kv.1 ++ " = " ++ literal kv.2

/-- `update(values)`: compiles `UPDATE ... SET ...` with the cached
`WHERE` and `RETURNING` clauses and executes. -/
def updateFn (oracle : Exec) (values : JsObj) (s : TQB) : TermRes :=
  .ok (execClear oracle s
    ("UPDATE " ++ quoteIdent s.tableName ++ " SET " ++
      String.intercalate ", " (updateSetPieces values) ++ " " ++
      s.sql.sqlWhere ++ " " ++ s.sql.sqlReturning ++ ";"))

/-- JavaScript string coercion of a possibly-`undefined` value (template
interpolation). -/
def jsToString : Option JSVal → String
  | none => "undefined"
  | some v => rawString v

/-! ## DDL terminal calls (`#__alter`, `add`, `modify`, `rename`, `del`) -/

/-- The `columnData` argument of `add` / `modify`; destructured fields may
be absent (`Option.none` is `undefined`). -/
structure ColumnData where
  name : String
  type : String
  length : Option JSVal
  precision : Option JSVal
  scale : Option JSVal
  defaultValue : Option JSVal
  nullable : Option JSVal
deriving Repr, DecidableEq

/-- What `#__alter` computes before `add` / `modify` branch on it. -/
structure AlterParts where
  sqlA : String
  name : String
  sqlType : String
  defaultClause : String
  nullClause : String
  initialColumn : List SchemaColumn
  initialDataType : Option String
deriving Repr, DecidableEq

/-- The physical type switch of `#__alter` on the lower-cased logical
type; a string type needs a truthy length, a float type a truthy precision
and scale. The unsupported-type message interpolates `type["name"]`, which
is `undefined` on a string. -/
def sqlTypeOf (type1 : String) (length precision scale : Option JSVal) :
    Except String String :=
  match type1 with
  | "string" =>
    if !truthyOpt length then .error "String type requires max length"
    else .ok ("VARCHAR(" ++ jsToString length ++ ")")
  | "float" =>
    if !truthyOpt precision || !truthyOpt scale then
      .error "Float type requires max and min"
    else .ok ("DECIMAL(" ++ jsToString precision ++ ", " ++ jsToString scale ++ ")")
  | "pk" => .ok "SERIAL PRIMARY KEY"
  | "int" => .ok "INT"
  | "timestamp" => .ok "TIMESTAMP"
  | "time" => .ok "TIME"
  | "date" => .ok "DATE"
  | _ => .error "Unsupported data type: undefined"

/-- `#__alter(columnData)`: looks the column up in the fetched schema,
validates the name, renders the physical type and the default / null
clauses, and prefixes the `ALTER TABLE` statement. -/
def alterCore (tableName : String) (schemaData : List SchemaColumn)
    (cd : ColumnData) : Except String AlterParts :=
  let initialColumn := schemaData.filter (·.column_name == cd.name)
  let initialDataType :=
    if initialColumn.length = 1 then (initialColumn.head?).map (·.data_type)
    else none
  let type1 := strToLower cd.type
  match validateSQLName [cd.name] with
  | .error e => .error e
  | .ok () =>
    match sqlTypeOf type1 cd.length cd.precision cd.scale with
    | .error e => .error e
    | .ok sqlType =>
      let defaultClause :=
        match cd.defaultValue with
        | some v => "DEFAULT " ++ literal v
        | none => ""
      let nullClause := if cd.nullable == some (.bool false) then "NOT NULL" else ""
      .ok { sqlA := "ALTER TABLE " ++ quoteIdent tableName
            name := cd.name
            sqlType
            defaultClause
            nullClause
            initialColumn
            initialDataType }

/-- `add(columnData)`: fails when the column already exists or when a
serial primary key carries a truthy default; otherwise compiles
`ADD COLUMN` and executes. -/
def addFn (schemaData : List SchemaColumn) (oracle : Exec) (cd : ColumnData)
    (s : TQB) : TermRes :=
  match alterCore s.tableName schemaData cd with
  | .error e => .error (e, s)
  | .ok p =>
    if p.initialColumn.length ≠ 0 then
      .error ("There is already column with name " ++ cd.name ++ ".", s)
    else if cd.type == "pk" && truthyOpt cd.defaultValue then
      .error ("Can't add a serial primary key with a default value.", s)
    else
      .ok (execClear oracle s
        (p.sqlA ++ " ADD COLUMN " ++ quoteIdent p.name ++ " " ++ p.sqlType ++
          " " ++ p.nullClause ++ " " ++ p.defaultClause ++ ";"))

/-- The numeric catalog types `modify` accepts as conversion sources for
`int` / `float`. -/
def numericTypes : List String :=
  ["integer", "decimal", "smallint", "bigint", "real", "double precision", "numeric"]

/-- The date catalog types `modify` accepts as conversion sources for
`date` / `time` / `timestamp`. -/
def dateTypes : List String :=
  ["date", "time", "timestamp", "timestamp without time zone", "interval"]

/-- `modify(columnData)`: fails when the column does not exist, when the
conversion crosses type families (the switch reads the original-case
logical type), or on an unsupported type; otherwise compiles the
`ALTER COLUMN` statements and executes. -/
def modifyFn (schemaData : List SchemaColumn) (oracle : Exec) (cd : ColumnData)
    (s : TQB) : TermRes :=
  match alterCore s.tableName schemaData cd with
  | .error e => .error (e, s)
  | .ok p =>
    if p.initialColumn.length = 0 then
      .error ("There is no such column as " ++ cd.name ++ ".", s)
    else
      let famCheck : Except String Unit :=
        if cd.type == "float" || cd.type == "int" then
          if !(p.initialDataType.elim false (numericTypes.contains ·)) then
            .error "Can not convert non-numeric data types into numeric."
          else .ok ()
        else if cd.type == "date" || cd.type == "time" || cd.type == "timestamp" then
          if !(p.initialDataType.elim false (dateTypes.contains ·)) then
            .error "Can not convert non-date types into date like types."
          else .ok ()
        else if cd.type == "string" then .ok ()
        else .error ("Unsupported data type: " ++ cd.type ++ ".")
      match famCheck with
      | .error e => .error (e, s)
      | .ok () =>
        let nullAction :=
          if p.nullClause ≠ "" then
            p.sqlA ++ " ALTER COLUMN " ++ quoteIdent p.name ++ " SET " ++
              p.nullClause ++ ";"
          else ""
        let defaultAction :=
          if p.defaultClause ≠ "" then
            p.sqlA ++ " ALTER COLUMN " ++ quoteIdent p.name ++ " SET " ++
              p.defaultClause ++ ";"
          else ""
        .ok (execClear oracle s
          (p.sqlA ++ " ALTER COLUMN " ++ quoteIdent p.name ++ " TYPE " ++
            p.sqlType ++ "; " ++ nullAction ++ " " ++ defaultAction))

/-- Message of the `rename` / `del` column-existence checks. -/
def noSuchColumnMsg (column tableName : String) : String :=
  "There's no such column as \"" ++ column ++ "\" in the table \"" ++
    tableName ++ "\""

/-- `rename(oldName, newName)`: validates both names, requires `oldName`
in the schema, compiles `RENAME COLUMN` and executes. -/
def renameFn (schemaData : List SchemaColumn) (oracle : Exec)
    (oldName newName : String) (s : TQB) : TermRes :=
  match validateSQLName [oldName, newName] with
  | .error e => .error (e, s)
  | .ok () =>
    if !(schemaData.map (·.column_name)).contains oldName then
      .error (noSuchColumnMsg oldName s.tableName, s)
    else
      .ok (execClear oracle s
        ("ALTER TABLE " ++ quoteIdent s.tableName ++ " RENAME COLUMN " ++
          quoteIdent oldName ++ " TO " ++ quoteIdent newName))

/-- `del(column)`: validates the name, requires the column in the schema,
compiles `DROP COLUMN` and executes. -/
def delFn (schemaData : List SchemaColumn) (oracle : Exec) (column : String)
    (s : TQB) : TermRes :=
  match validateSQLName [column] with
  | .error e => .error (e, s)
  | .ok () =>
    if !(schemaData.map (·.column_name)).contains column then
      .error (noSuchColumnMsg column s.tableName, s)
    else
      .ok (execClear oracle s
        ("ALTER TABLE " ++ quoteIdent s.tableName ++ " DROP COLUMN " ++
          quoteIdent column))

/-! ## Aggregates (`count`, `sum`, `avg`, `min`, `max`)

`parseInt` / `parseFloat` are modelled exactly on integer inputs; a
fractional string parses to its integer part (the claims read no
aggregate value, only the handle state after the call). Reading a
property of `rows[0]` when the oracle returned no row throws, after the
cache was already cleared by `#__execute`. -/

/-- Leading-integer parse shared by the `parseInt` / `parseFloat` models;
`none` is NaN. -/
def parseIntString (s : String) : Option Int :=
  let t := (strTrim s).data
  let neg := t.head? == some '-'
  let body := if neg then t.tail else t
  let digits := body.takeWhile Char.isDigit
  if digits.isEmpty then none
  else
    let n : Nat := digits.foldl (fun acc c => acc * 10 + (c.toNat - 48)) 0
    some (if neg then -(n : Int) else (n : Int))

/-- `parseInt` on a possibly-`undefined` value. -/
def parseIntJS : Option JSVal → Option Int
  | some (.num n) => some n
  | some v => parseIntString (rawString v)
  | none => none

/-- Message of the TypeError thrown by `rows[0].<field>` on no rows. -/
def noRowsMsg : String := "Cannot read properties of undefined"

/-- Shared tail of `count` / `sum`: execute the aggregate statement and
`parseInt` the named field of the first row. -/
def aggIntRun (oracle : Exec) (s : TQB) (sql field : String) :
    Except (String × TQB) (TQB × Option Int) :=
  let p := execClear oracle s sql
  match p.2.head? with
  | none => .error (noRowsMsg, p.1)
  | some row => .ok (p.1, parseIntJS (getProp row field))

/-- `count([column])`: a truthy column name is validated and counted,
otherwise `*`; the result is `parseInt(rows[0].count)`. -/
def countFn (oracle : Exec) (column : Option String) (s : TQB) :
    Except (String × TQB) (TQB × Option Int) :=
  let run := fun c => aggIntRun oracle s
    ("SELECT COUNT(" ++ c ++ ") FROM " ++ quoteIdent s.tableName) "count"
  match column with
  | some c =>
    if c ≠ "" then
      match validateSQLName [c] with
      | .error e => .error (e, s)
      | .ok () => run c
    else run "*"
  | none => run "*"

/-- `sum(column)`: validates the name; the result is
`parseInt(rows[0].sum)`. -/
def sumFn (oracle : Exec) (column : String) (s : TQB) :
    Except (String × TQB) (TQB × Option Int) :=
  match validateSQLName [column] with
  | .error e => .error (e, s)
  | .ok () =>
    aggIntRun oracle s
      ("SELECT SUM(" ++ column ++ ") FROM " ++ quoteIdent s.tableName) "sum"

/-- `avg(column, [precision])`: validates the name, rejects a precision
outside 0-100, executes and parses `rows[0].avg` (the `toFixed` rounding
of a fractional average is idealized away with the fractional values). -/
def avgFn (oracle : Exec) (column : String) (precision : Option Int) (s : TQB) :
    Except (String × TQB) (TQB × Option Int) :=
  match validateSQLName [column] with
  | .error e => .error (e, s)
  | .ok () =>
    if precision.elim false (fun p => p > 100 || p < 0) then
      .error ("Precision must in range of 0-100", s)
    else
      aggIntRun oracle s
        ("SELECT AVG(" ++ column ++ ") FROM " ++ quoteIdent s.tableName) "avg"

/-- The regular expression `^\d+(\.\d+)?$` of `min` / `max`. -/
def isNumericLiteral (s : String) : Bool :=
  match splitChar '.' s.data with
  | [a] => !a.isEmpty && a.all Char.isDigit
  | [a, b] => !a.isEmpty && !b.isEmpty && a.all Char.isDigit && b.all Char.isDigit
  | _ => false

/-- The `min` / `max` result rule: numeric-looking text parses to a
number, anything else is returned raw. -/
def minMaxPost (raw : Option JSVal) : Option JSVal :=
  if isNumericLiteral (jsToString raw) then
    some (.num ((parseIntString (jsToString raw)).getD 0))
  else raw

/-- Shared tail of `min` / `max`. -/
def minMaxRun (oracle : Exec) (s : TQB) (sql field : String) :
    Except (String × TQB) (TQB × Option JSVal) :=
  let p := execClear oracle s sql
  match p.2.head? with
  | none => .error (noRowsMsg, p.1)
  | some row => .ok (p.1, minMaxPost (getProp row field))

/-- `min(column)`: validates the name, executes, post-processes
`rows[0].min`. -/
def minFn (oracle : Exec) (column : String) (s : TQB) :
    Except (String × TQB) (TQB × Option JSVal) :=
  match validateSQLName [column] with
  | .error e => .error (e, s)
  | .ok () =>
    minMaxRun oracle s
      ("SELECT MIN(" ++ column ++ ") FROM " ++ quoteIdent s.tableName) "min"

/-- `max(column)`: validates the name, executes, post-processes
`rows[0].max`. -/
def maxFn (oracle : Exec) (column : String) (s : TQB) :
    Except (String × TQB) (TQB × Option JSVal) :=
  match validateSQLName [column] with
  | .error e => .error (e, s)
  | .ok () =>
    minMaxRun oracle s
      ("SELECT MAX(" ++ column ++ ") FROM " ++ quoteIdent s.tableName) "max"

/-! ## The flat-file backend (`CSVQueryBuilder` / `CSVDatabase`)

The delimited-text parse / stringify pair is the external library the
specification scopes out: with a `columns` list it projects a row object
onto the columns (missing property: empty field, extra property:
dropped), and with `columns: true` it parses each data line into an
object keyed by the header. A file is modelled as its header and its
data rows, each row aligned with the header as the library writes it. -/

/-- A parsed row of the flat-file backend: header columns to text values. -/
abbrev CsvRow := List (String × String)

/-- Property read on a parsed row (`none` is `undefined`). -/
def getS (r : CsvRow) (k : String) : Option String :=
  List.lookup k r

/-- The in-memory image of one table file. -/
structure CSVFile where
  header : List String
  rows : List (List String)
deriving Repr, DecidableEq

/-- `readTable`: each data row becomes an object keyed by the header. -/
def readTable (f : CSVFile) : List CsvRow :=
  f.rows.map fun r => f.header.zip r

/-- The stringify library with a `columns` list, on one row object. -/
def stringifyRow (columns : List String) (r : CsvRow) : List String :=
  columns.map fun c => (getS r c).getD ""

/-- `writeToTable(tablePath, data)`: append the supplied rows projected
onto the header columns; an empty row list leaves the file alone. No
check is made against the header. -/
def writeToTable (f : CSVFile) (rows : List CsvRow) : CSVFile :=
  if rows.length = 0 then f
  else { f with rows := f.rows ++ rows.map (stringifyRow f.header) }

/-- `deleteRows(tablePath, condition)`: keep the rows the condition
rejects, or none at all without a condition, and rewrite the whole file
with its header. -/
def deleteRowsDb (f : CSVFile) (condition : Option (CsvRow → Bool)) : CSVFile :=
  let rowsToKeep :=
    match condition with
    | some c => (readTable f).filter fun r => !c r
    | none => []
  { header := f.header, rows := rowsToKeep.map (stringifyRow f.header) }

/-- The object spread `{ ...row, ...data }` for a full row and an update
object whose keys are header columns. -/
def mergeRow (row data : CsvRow) : CsvRow :=
  row.map fun kv => (kv.1, (getS data kv.1).getD kv.2)

/-- `updateTable(tablePath, condition, data)`: every update key must be a
header column; the matched rows (all rows without a condition) are merged
with the update object and the whole file rewritten. -/
def updateTableDb (tableName : String) (f : CSVFile)
    (condition : Option (CsvRow → Bool)) (data : CsvRow) :
    Except String CSVFile :=
  if !((data.map (·.1)).all (f.header.contains ·)) then
    .error ("Some of the provided columns don't exist in the \"" ++
      tableName ++ "\" table")
  else
    let updatedRows := (readTable f).map fun row =>
      match condition with
      | some c => if c row then mergeRow row data else row
      | none => mergeRow row data
    .ok { header := f.header, rows := updatedRows.map (stringifyRow f.header) }

/-- `appendColumns(tablePath, columns)`: none of the new columns may
exist; the header is extended and every row rewritten onto it. -/
def appendColumnsDb (f : CSVFile) (columns : List String) :
    Except String CSVFile :=
  if columns.any (f.header.contains ·) then
    .error "Some of the provided columns already exist in the table."
  else
    let newHeader := f.header ++ columns
    .ok { header := newHeader, rows := (readTable f).map (stringifyRow newHeader) }

/-- `deleteColumns(tablePath, columns)`: every named column must exist;
the header keeps the others and every row is rewritten onto it. -/
def deleteColumnsDb (f : CSVFile) (columns : List String) :
    Except String CSVFile :=
  if !(columns.all (f.header.contains ·)) then
    .error ("Provided columns: " ++ String.intercalate "," columns ++
      ", existing columns: " ++ String.intercalate "," f.header)
  else
    let newColumns := f.header.filter fun c => !columns.contains c
    .ok { header := newColumns, rows := (readTable f).map (stringifyRow newColumns) }

/-- State of a `CSVQueryBuilder` handle: the accumulated lists of the
shared `QueryBuilder` base class; `where` conditions are the callback
functions the caller pushes. -/
structure CSVBuilder where
  tableName : String
  selectCols : List String
  whereConds : List (CsvRow → Bool)
  orderCols : List String
  returningCols : List String
  descFlag : Bool
  alterCols : List String

/-- A fresh flat-file handle, as `db.table(name)` constructs it. -/
def freshCSV (tableName : String) : CSVBuilder :=
  { tableName, selectCols := [], whereConds := [], orderCols := [],
    returningCols := [], descFlag := false, alterCols := [] }

/-- `select(...columns)` of the flat-file base class. -/
def csvSelect (columns : List String) (b : CSVBuilder) : CSVBuilder :=
  { b with selectCols :=
      if columns.length ≠ 0 then columns.filter (· ≠ "*") else ["*"] }

/-- `where(condition)` of the flat-file base class: push the callback. -/
def csvWhere (condition : CsvRow → Bool) (b : CSVBuilder) : CSVBuilder :=
  { b with whereConds := b.whereConds ++ [condition] }

/-- `returning(...columns)` of the flat-file base class. -/
def csvReturning (columns : List String) (b : CSVBuilder) : CSVBuilder :=
  { b with returningCols :=
      if columns.length ≠ 0 then columns.filter (· ≠ "*") else ["*"] }

/-- `orderBy(...columns)` of the flat-file base class (the no-argument
default is `["*"]`). -/
def csvOrderBy (columns : List String) (b : CSVBuilder) : CSVBuilder :=
  { b with orderCols :=
      if columns.length ≠ 0 then columns.filter (· ≠ "*") else ["*"] }

/-- `desc()` of the flat-file base class. -/
def csvDesc (b : CSVBuilder) : CSVBuilder :=
  { b with descFlag := true }

/-- `alter(...columns)` of the flat-file base class. -/
def csvAlter (columns : List String) (b : CSVBuilder) : CSVBuilder :=
  { b with alterCols := if columns.length ≠ 0 then columns else ["*"] }

/-- The sort comparator of `get` compares the first order column with the
JavaScript string operators; a comparison against a missing value is
false, so such pairs count as equal. -/
def strGtOpt : Option String → Option String → Bool
  | some a, some b => strLtB b a
  | _, _ => false

/-- The comparator as a precedence relation for the stable sort: row `a`
may stay before row `b` unless the comparator orders `a` after `b`. -/
def rowLe (c : String) (a b : CsvRow) : Prop :=
  ¬ strGtOpt (getS a c) (getS b c) = true

instance (c : String) : DecidableRel (rowLe c) := fun _ _ =>
  inferInstanceAs (Decidable ¬ _)

/-- The column projection `get` / `returning` perform: keys in requested
order, missing columns skipped. -/
def projectCols (cols : List String) (row : CsvRow) : CsvRow :=
  cols.filterMap fun c => (getS row c).map ((c, ·))

/-- `get()` of the flat-file backend: read, filter by the conjunction of
the pushed conditions, project the selection, stable-sort by the first
order column, reverse when descending was requested. (The V8 sort is
stable; `List.insertionSort` models it.) -/
def csvGet (b : CSVBuilder) (f : CSVFile) : List CsvRow :=
  let data := readTable f
  let data :=
    if b.whereConds.length > 0 then
      data.filter fun row => b.whereConds.all fun cond => cond row
    else data
  let data :=
    if b.selectCols.length > 0 && b.selectCols.head? != some "*" then
      data.map (projectCols b.selectCols)
    else data
  let data :=
    if b.orderCols.length > 0 then
      data.insertionSort (rowLe (b.orderCols.headD ""))
    else data
  if b.descFlag then data.reverse else data

/-- The combined condition `delete` / `update` build from the pushed
callbacks (`null` without any). -/
def csvCondition (b : CSVBuilder) : Option (CsvRow → Bool) :=
  if b.whereConds.length ≠ 0 then
    some fun row => b.whereConds.all fun cond => cond row
  else none

/-- The rows a returning terminal call reports, per the cached
`returning` columns (`none` is `undefined`). -/
def returningResult (returningCols : List String) (rows : List CsvRow) :
    Option (List CsvRow) :=
  if returningCols.length ≠ 0 && !returningCols.contains "*" then
    some (rows.map (projectCols returningCols))
  else if returningCols.head? == some "*" then some rows
  else none

/-- `delete()` of the flat-file backend: snapshot the matched rows when a
`returning` was requested, delete them from the file, report per the
`returning` columns. The builder state is returned as the call leaves it. -/
def csvDelete (b : CSVBuilder) (f : CSVFile) :
    CSVBuilder × CSVFile × Option (List CsvRow) :=
  let condition := csvCondition b
  let rowsToDelete :=
    if b.returningCols.length ≠ 0 then
      match condition with
      | some c => (readTable f).filter c
      | none => readTable f
    else []
  (b, deleteRowsDb f condition, returningResult b.returningCols rowsToDelete)

/-- `insert(values)` of the flat-file backend on a non-empty row list
(the thrown no-argument case is outside the typed model): append through
`writeToTable`, report the supplied rows per the `returning` columns. -/
def csvInsert (b : CSVBuilder) (f : CSVFile) (values : List CsvRow) :
    CSVBuilder × CSVFile × Option (List CsvRow) :=
  (b, writeToTable f values, returningResult b.returningCols values)

/-- `update(values)` of the flat-file backend: snapshot the matched rows
when a `returning` was requested, rewrite through `updateTable`, report
per the `returning` columns. -/
def csvUpdate (b : CSVBuilder) (f : CSVFile) (values : CsvRow) :
    Except String (CSVBuilder × CSVFile × Option (List CsvRow)) :=
  let condition := csvCondition b
  let rowsToUpdate :=
    if b.returningCols.length ≠ 0 then
      match condition with
      | some c => (readTable f).filter c
      | none => readTable f
    else []
  match updateTableDb b.tableName f condition values with
  | .error e => .error e
  | .ok f1 => .ok (b, f1, returningResult b.returningCols rowsToUpdate)

/-- `addColumns()` of the flat-file backend: requires named `alter`
columns, then appends them. -/
def csvAddColumns (b : CSVBuilder) (f : CSVFile) :
    Except String (CSVBuilder × CSVFile) :=
  if b.alterCols.length = 1 && b.alterCols.head? == some "*" then
    .error "User didn't specify what columns to add"
  else
    match appendColumnsDb f b.alterCols with
    | .error e => .error e
    | .ok f1 => .ok (b, f1)

/-- `removeColumns()` of the flat-file backend: with `alter` left at `*`,
drop every header column, else the named ones. -/
def csvRemoveColumns (b : CSVBuilder) (f : CSVFile) :
    Except String (CSVBuilder × CSVFile) :=
  if b.alterCols.length = 1 && b.alterCols.head? == some "*" then
    match deleteColumnsDb f f.header with
    | .error e => .error e
    | .ok f1 => .ok (b, f1)
  else
    match deleteColumnsDb f b.alterCols with
    | .error e => .error e
    | .ok f1 => .ok (b, f1)

/-- `count()` of the flat-file backend: a fold over `get()`. -/
def csvCount (b : CSVBuilder) (f : CSVFile) : CSVBuilder × Nat :=
  (b, (csvGet b f).length)

/-- `first()` of the flat-file backend. -/
def csvFirst (b : CSVBuilder) (f : CSVFile) : CSVBuilder × Option CsvRow :=
  (b, (csvGet b f).head?)

/-- `last()` of the flat-file backend. -/
def csvLast (b : CSVBuilder) (f : CSVFile) : CSVBuilder × Option CsvRow :=
  (b, (csvGet b f).getLast?)

/-! ## The external relational server (modelled)

Modelled from the spec: the relational server is an external collaborator
the specification scopes out (section 1), required only to run the
statements the backend compiles. For the order claims it is modelled on
the one statement family they exercise: `SELECT * FROM t ORDER BY c`
returns the table rows sorted ascending by the text of column `c`, with
`DESC` descending, ties left in a deterministic stable order (a stable
sort, `List.insertionSort`). -/

/-- The sort key of the modelled server for order column `c`. -/
def serverKey (c : String) (r : CsvRow) : String :=
  (getS r c).getD ""

/-- The modelled server on `ORDER BY c [DESC]` over a stored table. -/
def serverOrderEval (rows : List CsvRow) (c : String) (d : Bool) : List CsvRow :=
  if d then rows.insertionSort fun a b => strLtB (serverKey c a) (serverKey c b) = false
  else rows.insertionSort fun a b => strLtB (serverKey c b) (serverKey c a) = false

/-- The upsert update clause as claim C2 words it, for comparison with
`upsertSetPieces`: a non-key column is updated from the incoming row when
the row SUPPLIES the column (its key is present), and set to the schema
default only when the row OMITS it. -/
def upsertSetPiecesClaim (schemaData1 : List SchemaColumn)
    (primaryKeys : List PKColumn) (values : JsObj) : List String :=
  let primaryKeyColumns := primaryKeys.map (·.column_name)
  let columnsToUpdate :=
    schemaData1.filter fun col => !primaryKeyColumns.contains col.column_name
  columnsToUpdate.map fun col =>
    if (objKeys values).contains col.column_name then
      quoteIdent col.column_name ++ " = EXCLUDED." ++ quoteIdent col.column_name
    else
      quoteIdent col.column_name ++ " = " ++ literal col.column_default

/-- The upsert statement as claim C2 words it (same skeleton as
`upsertSql`, update clause per `upsertSetPiecesClaim`). -/
def upsertSqlClaim (tableName : String) (primaryKeys : List PKColumn)
    (schemaData : List SchemaColumn) (values : JsObj)
    (returningClause : String) : Except String String :=
  match insertCore tableName primaryKeys schemaData values with
  | .error e => .error e
  | .ok (sql, schemaData1, pks) =>
    match pks with
    | [] => .ok (sql ++ " " ++ returningClause)
    | pk0 :: _ =>
      .ok (sql ++ " ON CONFLICT (" ++ quoteIdent pk0.column_name ++
        ") DO UPDATE SET " ++
        String.intercalate ", "
          (upsertSetPiecesClaim schemaData1 primaryKeys values) ++
        " " ++ returningClause)

end CommandORM

deriving instance DecidableEq for Except

namespace CommandORM

/-! # Theorems

Helper lemmas first, then one theorem per claim (with its witness or
counterexample where the status calls for one). -/

/-- Characters with equal code points are equal. -/
theorem char_toNat_inj {a b : Char} (h : a.toNat = b.toNat) : a = b := by
  unfold Char.toNat at h
  exact Char.eq_of_val_eq (UInt32.toNat.inj h)

/-- `charListLt` holds in at most one direction. -/
theorem charListLt_asymm : ∀ as bs, charListLt as bs = true → charListLt bs as = false := by
  intro as
  induction as with
  | nil =>
    intro bs h
    cases bs with
    | nil => simp [charListLt] at h
    | cons b bs => simp [charListLt]
  | cons a as ih =>
    intro bs h
    cases bs with
    | nil => simp [charListLt] at h
    | cons b bs =>
      simp only [charListLt] at h ⊢
      rcases Nat.lt_trichotomy a.toNat b.toNat with hlt | heq | hgt
      · simp [Nat.lt_asymm hlt, hlt]
      · simp only [heq, lt_irrefl, if_false] at h ⊢
        exact ih bs h
      · simp [Nat.lt_asymm hgt, hgt] at h

/-- `charListLt` is transitive. -/
theorem charListLt_trans : ∀ as bs cs, charListLt as bs = true →
    charListLt bs cs = true → charListLt as cs = true := by
  intro as
  induction as with
  | nil =>
    intro bs cs h1 h2
    cases bs with
    | nil => simp [charListLt] at h1
    | cons b bs =>
      cases cs with
      | nil => simp [charListLt] at h2
      | cons c cs => simp [charListLt]
  | cons a as ih =>
    intro bs cs h1 h2
    cases bs with
    | nil => simp [charListLt] at h1
    | cons b bs =>
      cases cs with
      | nil => simp [charListLt] at h2
      | cons c cs =>
        simp only [charListLt] at h1 h2 ⊢
        rcases Nat.lt_trichotomy a.toNat b.toNat with hab | hab | hab <;>
          rcases Nat.lt_trichotomy b.toNat c.toNat with hbc | hbc | hbc
        · simp [Nat.lt_trans hab hbc]
        · simp [hbc ▸ hab]
        · simp [Nat.lt_asymm hbc, hbc] at h2
        · rw [hab]
          simp [hbc]
        · simp only [hab, hbc, lt_irrefl, if_false] at h1 h2 ⊢
          exact ih bs cs h1 h2
        · simp [Nat.lt_asymm hbc, hbc] at h2
        · simp [Nat.lt_asymm hab, hab] at h1
        · simp [Nat.lt_asymm hab, hab] at h1
        · simp [Nat.lt_asymm hab, hab] at h1

/-- Two character lists `charListLt` orders in neither direction are
equal. -/
theorem charListLt_connex : ∀ as bs, charListLt as bs = false →
    charListLt bs as = false → as = bs := by
  intro as
  induction as with
  | nil =>
    intro bs h1 _h2
    cases bs with
    | nil => rfl
    | cons b bs => simp [charListLt] at h1
  | cons a as ih =>
    intro bs h1 h2
    cases bs with
    | nil => simp [charListLt] at h2
    | cons b bs =>
      simp only [charListLt] at h1 h2
      rcases Nat.lt_trichotomy a.toNat b.toNat with hab | hab | hab
      · simp [hab] at h1
      · simp only [hab, lt_irrefl, if_false] at h1 h2
        rw [char_toNat_inj hab, ih bs h1 h2]
      · simp [hab] at h2

/-- `strLtB` holds in at most one direction. -/
theorem strLtB_asymm {a b : String} (h : strLtB a b = true) : strLtB b a = false :=
  charListLt_asymm a.data b.data h

/-- `strLtB` is transitive. -/
theorem strLtB_trans {a b c : String} (h1 : strLtB a b = true)
    (h2 : strLtB b c = true) : strLtB a c = true :=
  charListLt_trans a.data b.data c.data h1 h2

/-- Strings `strLtB` orders in neither direction are equal. -/
theorem strLtB_connex {a b : String} (h1 : strLtB a b = false)
    (h2 : strLtB b a = false) : a = b := by
  cases a with
  | mk da =>
    cases b with
    | mk db => exact congrArg String.mk (charListLt_connex da db h1 h2)

/-- A string not below another is above it or equal to it. -/
theorem strLtB_false_cases {a b : String} (h : strLtB a b = false) :
    strLtB b a = true ∨ a = b := by
  cases hba : strLtB b a with
  | true => exact Or.inl rfl
  | false => exact Or.inr (strLtB_connex h hba)

/-- Modelled-server order lemma: when the order column takes pairwise
distinct values over the stored rows, the reversed ascending result is
exactly the descending result. -/
theorem reverse_serverAsc_eq_serverDesc (c : String) (tbl : List CsvRow)
    (hnd : tbl.Pairwise fun a b => serverKey c a ≠ serverKey c b) :
    (serverOrderEval tbl c false).reverse = serverOrderEval tbl c true := by
  haveI hTotA : IsTotal CsvRow (fun a b => strLtB (serverKey c b) (serverKey c a) = false) := by
    constructor
    intro a b
    cases h : strLtB (serverKey c b) (serverKey c a) with
    | false => exact Or.inl rfl
    | true => exact Or.inr (strLtB_asymm h)
  haveI hTrA : IsTrans CsvRow (fun a b => strLtB (serverKey c b) (serverKey c a) = false) := by
    constructor
    intro a b d h1 h2
    cases hda : strLtB (serverKey c d) (serverKey c a) with
    | false => rfl
    | true =>
      rcases strLtB_false_cases h1 with hab | hab
      · exact absurd (strLtB_trans hda hab) (by simp [h2])
      · rw [hab] at h2
        simp [hda] at h2
  haveI hTotD : IsTotal CsvRow (fun a b => strLtB (serverKey c a) (serverKey c b) = false) := by
    constructor
    intro a b
    cases h : strLtB (serverKey c a) (serverKey c b) with
    | false => exact Or.inl rfl
    | true => exact Or.inr (strLtB_asymm h)
  haveI hTrD : IsTrans CsvRow (fun a b => strLtB (serverKey c a) (serverKey c b) = false) := by
    constructor
    intro a b d h1 h2
    cases had : strLtB (serverKey c a) (serverKey c d) with
    | false => rfl
    | true =>
      rcases strLtB_false_cases h1 with hab | hab
      · exact absurd (strLtB_trans hab had) (by simp [h2])
      · rw [hab] at had
        simp [had] at h2
  haveI : IsAntisymm CsvRow (fun a b => strLtB (serverKey c b) (serverKey c a) = true) := by
    constructor
    intro a b h1 h2
    exact absurd h1 (by simp [strLtB_asymm h2])
  have hS1 : (tbl.insertionSort
      (fun a b => strLtB (serverKey c b) (serverKey c a) = false)).Sorted
      (fun a b => strLtB (serverKey c b) (serverKey c a) = false) :=
    List.sorted_insertionSort _ tbl
  have hS2 : (tbl.insertionSort
      (fun a b => strLtB (serverKey c a) (serverKey c b) = false)).Sorted
      (fun a b => strLtB (serverKey c a) (serverKey c b) = false) :=
    List.sorted_insertionSort _ tbl
  have hP1 : List.Perm (tbl.insertionSort
      (fun a b => strLtB (serverKey c b) (serverKey c a) = false)) tbl :=
    List.perm_insertionSort _ tbl
  have hP2 : List.Perm (tbl.insertionSort
      (fun a b => strLtB (serverKey c a) (serverKey c b) = false)) tbl :=
    List.perm_insertionSort _ tbl
  have hndSymm : ∀ {x y : CsvRow}, serverKey c x ≠ serverKey c y →
      serverKey c y ≠ serverKey c x := fun h => h.symm
  have hnd1 : (tbl.insertionSort
      (fun a b => strLtB (serverKey c b) (serverKey c a) = false)).Pairwise
      (fun a b => serverKey c a ≠ serverKey c b) :=
    ((hP1.pairwise_iff hndSymm).mpr hnd)
  have hnd2 : (tbl.insertionSort
      (fun a b => strLtB (serverKey c a) (serverKey c b) = false)).Pairwise
      (fun a b => serverKey c a ≠ serverKey c b) :=
    ((hP2.pairwise_iff hndSymm).mpr hnd)
  have hstrict1 : (tbl.insertionSort
      (fun a b => strLtB (serverKey c b) (serverKey c a) = false)).reverse.Pairwise
      (fun a b => strLtB (serverKey c b) (serverKey c a) = true) := by
    rw [List.pairwise_reverse]
    refine (hS1.and hnd1).imp ?_
    rintro a b ⟨hle, hne⟩
    rcases strLtB_false_cases hle with h | h
    · exact h
    · exact absurd h.symm hne
  have hstrict2 : (tbl.insertionSort
      (fun a b => strLtB (serverKey c a) (serverKey c b) = false)).Pairwise
      (fun a b => strLtB (serverKey c b) (serverKey c a) = true) := by
    refine (hS2.and hnd2).imp ?_
    rintro a b ⟨hle, hne⟩
    rcases strLtB_false_cases hle with h | h
    · exact h
    · exact absurd h hne
  have hperm : List.Perm (tbl.insertionSort
      (fun a b => strLtB (serverKey c b) (serverKey c a) = false)).reverse
      (tbl.insertionSort fun a b => strLtB (serverKey c a) (serverKey c b) = false) :=
    ((List.reverse_perm _).trans hP1).trans hP2.symm
  have := List.eq_of_perm_of_sorted hperm hstrict1 hstrict2
  simpa [serverOrderEval] using this


/-- First-match lookup ignores entries under a different key, so dropping
an absent key from a row never changes a header-column read. -/
theorem lookup_filter_ne {k c : String} (row : CsvRow) (hck : c ≠ k) :
    List.lookup c (row.filter fun kv => kv.1 ≠ k) = List.lookup c row := by
  induction row with
  | nil => rfl
  | cons kv rest ih =>
    obtain ⟨k1, v1⟩ := kv
    simp only [ne_eq, decide_not] at ih ⊢
    by_cases hk : k1 = k
    · subst hk
      have hbe : (c == k1) = false := by simp [hck]
      simp [List.filter_cons, List.lookup, hbe, ih]
    · by_cases hc : c = k1
      · subst hc
        simp [List.filter_cons, hk, List.lookup]
      · have hbe : (c == k1) = false := by simp [hc]
        simp [List.filter_cons, hk, List.lookup, hbe, ih]

/-- C10: on the flat-file backend, `delete()` on a handle with no `where`
clause registered rewrites the table file to the header alone: the header
is unchanged and every data row is removed. -/
theorem claim_C10_csv_delete_all (b : CSVBuilder) (f : CSVFile)
    (hW : b.whereConds = []) :
    (csvDelete b f).2.1.header = f.header ∧ (csvDelete b f).2.1.rows = [] := by
  simp [csvDelete, csvCondition, deleteRowsDb, hW]

/-- C10 witness: deleting without a `where` on a two-row file leaves the
header and no rows. -/
theorem claim_C10_witness :
    (csvDelete (freshCSV "tests") ⟨["a"], [["1"], ["2"]]⟩).2.1.header = ["a"] ∧
    (csvDelete (freshCSV "tests") ⟨["a"], [["1"], ["2"]]⟩).2.1.rows = [] :=
  claim_C10_csv_delete_all (freshCSV "tests") ⟨["a"], [["1"], ["2"]]⟩ rfl

/-- C6 counterexample: on the flat-file backend, inserting a row with the
key `zzz` absent from the header `[a, b]` does NOT fail and DOES modify
the file: the row is appended with the unknown key dropped. This refutes
the claim that such an insert fails with an unknown-column error and
leaves the file unmodified. -/
theorem claim_C6_counterexample :
    (csvInsert (freshCSV "t") ⟨["a", "b"], [["1", "2"]]⟩
        [[("a", "x"), ("zzz", "y")]]).2.1 ≠
      (⟨["a", "b"], [["1", "2"]]⟩ : CSVFile) ∧
    (csvInsert (freshCSV "t") ⟨["a", "b"], [["1", "2"]]⟩
        [[("a", "x"), ("zzz", "y")]]).2.1.rows =
      [["1", "2"], ["x", ""]] := by
  exact ⟨by decide, by decide⟩

/-- C6 amended: on the flat-file backend, `insert(values)` with a key
outside the header does not fail; the header is unchanged, each supplied
row is appended projected onto the header columns, and a key absent from
the header has no effect on the projection (it is silently dropped). -/
theorem claim_C6_amended (b : CSVBuilder) (f : CSVFile) (values : List CsvRow)
    (hne : values ≠ []) :
    (csvInsert b f values).2.1.header = f.header ∧
    (csvInsert b f values).2.1.rows = f.rows ++ values.map (stringifyRow f.header) ∧
    ∀ k, k ∉ f.header →
      ∀ row : CsvRow,
        stringifyRow f.header (row.filter fun kv => kv.1 ≠ k) =
          stringifyRow f.header row := by
  have hlen : values.length = 0 ↔ False := by
    simp [List.length_eq_zero, hne]
  refine ⟨?_, ?_, ?_⟩
  · simp [csvInsert, writeToTable, hlen]
  · simp [csvInsert, writeToTable, hlen]
  · intro k hk row
    unfold stringifyRow
    apply List.map_congr_left
    intro c hc
    have hck : c ≠ k := by
      intro h
      subst h
      exact hk hc
    rw [getS, getS, lookup_filter_ne row hck]

/-- C6 witness (amended claim): a concrete insert with the unknown key
`zzz` appends the projected row and keeps the header. -/
theorem claim_C6_witness :
    (csvInsert (freshCSV "t") ⟨["a", "b"], [["1", "2"]]⟩
        [[("a", "x"), ("zzz", "y")]]).2.1.header = ["a", "b"] ∧
    (csvInsert (freshCSV "t") ⟨["a", "b"], [["1", "2"]]⟩
        [[("a", "x"), ("zzz", "y")]]).2.1.rows =
      [["1", "2"]] ++ [[("a", "x"), ("zzz", "y")]].map (stringifyRow ["a", "b"]) ∧
    ∀ k, k ∉ (["a", "b"] : List String) →
      ∀ row : CsvRow,
        stringifyRow ["a", "b"] (row.filter fun kv => kv.1 ≠ k) =
          stringifyRow ["a", "b"] row :=
  claim_C6_amended (freshCSV "t") ⟨["a", "b"], [["1", "2"]]⟩
    [[("a", "x"), ("zzz", "y")]] (by decide)

/-- C4: `or` / `and` on a handle whose `where` cache is empty (a fresh
handle in particular) fail with the call-order message and leave the
state unchanged; likewise `onOr` / `onAnd` with no cached `on` clause. -/
theorem claim_C4_call_order_guard (t : String) (args : List JSArg) (s : TQB)
    (hOn : s.sql.sqlOn = "") (s2 : TQB) (hW : s2.sql.sqlWhere = "") :
    (freshTQB t).sql.sqlWhere = "" ∧
    (freshTQB t).sql.sqlOn = "" ∧
    orFn args s2 = .error (orGuardMsg, s2) ∧
    andFn args s2 = .error (andGuardMsg, s2) ∧
    onOrFn args s = .error (onOrGuardMsg, s) ∧
    onAndFn args s = .error (onAndGuardMsg, s) := by
  refine ⟨rfl, rfl, ?_, ?_, ?_, ?_⟩ <;>
    simp [orFn, andFn, onOrFn, onAndFn, hW, hOn]

/-- C4 witness: the guards fire on a fresh handle. -/
theorem claim_C4_witness :
    (freshTQB "tests").sql.sqlWhere = "" ∧
    (freshTQB "tests").sql.sqlOn = "" ∧
    orFn [] (freshTQB "tests") = .error (orGuardMsg, freshTQB "tests") ∧
    andFn [] (freshTQB "tests") = .error (andGuardMsg, freshTQB "tests") ∧
    onOrFn [] (freshTQB "tests") = .error (onOrGuardMsg, freshTQB "tests") ∧
    onAndFn [] (freshTQB "tests") = .error (onAndGuardMsg, freshTQB "tests") :=
  claim_C4_call_order_guard "tests" [] (freshTQB "tests") rfl (freshTQB "tests") rfl

/-- `a || b` falls back to `b` when `a` is falsy. -/
theorem jsOr_of_falsy {a : Option JSVal} {b : JSVal} (h : truthyOpt a = false) :
    jsOr a b = b := by
  cases a with
  | none => rfl
  | some v =>
    simp only [truthyOpt] at h
    simp [jsOr, h]

/-- C3: `get()` fails with the no-selection message whenever `select` was
never called (the fresh handle starts with an empty select cache and no
call except `select` writes it); with specific columns selected, a column
absent from the fetched schema and no cached join it fails with the
unknown-column message before executing; with a join cached the absence
check is skipped and the statement executes. -/
theorem claim_C3_get_select_guard (sd : List SchemaColumn) (oracle : Exec)
    (s : TQB) (t : String) (args : List JSArg) (cols : List String) (n : Int) :
    (freshTQB t).sql.sqlSelect = "" ∧
    (∀ s1, whereFn args s = .ok s1 → s1.sql.sqlSelect = s.sql.sqlSelect) ∧
    (∀ s1, orFn args s = .ok s1 → s1.sql.sqlSelect = s.sql.sqlSelect) ∧
    (∀ s1, andFn args s = .ok s1 → s1.sql.sqlSelect = s.sql.sqlSelect) ∧
    (∀ s1, onFn args s = .ok s1 → s1.sql.sqlSelect = s.sql.sqlSelect) ∧
    (∀ s1, onOrFn args s = .ok s1 → s1.sql.sqlSelect = s.sql.sqlSelect) ∧
    (∀ s1, onAndFn args s = .ok s1 → s1.sql.sqlSelect = s.sql.sqlSelect) ∧
    (∀ s1, innerJoinFn t args s = .ok s1 → s1.sql.sqlSelect = s.sql.sqlSelect) ∧
    (∀ s1, leftJoinFn t args s = .ok s1 → s1.sql.sqlSelect = s.sql.sqlSelect) ∧
    (∀ s1, rightJoinFn t args s = .ok s1 → s1.sql.sqlSelect = s.sql.sqlSelect) ∧
    (orderByFn cols s).sql.sqlSelect = s.sql.sqlSelect ∧
    (descFn s).sql.sqlSelect = s.sql.sqlSelect ∧
    (limitFn n s).sql.sqlSelect = s.sql.sqlSelect ∧
    (returningFn cols s).sql.sqlSelect = s.sql.sqlSelect ∧
    (s.sql.sqlSelect = "" → getFn sd oracle s = .error (noSelectMsg, s)) ∧
    (s.sql.sqlSelect ≠ "" →
      s.selectCols.all ((sd.map (·.column_name)).contains ·) = false →
      s.selectCols.head? ≠ some "*" →
      s.sql.sqlJoin = "" →
      getFn sd oracle s = .error (unknownColsMsg s.tableName, s)) ∧
    (s.sql.sqlSelect ≠ "" → s.sql.sqlJoin ≠ "" →
      getFn sd oracle s = .ok (execClear oracle s (getSqlString s))) := by
  refine ⟨rfl, ?_, ?_, ?_, ?_, ?_, ?_, ?_, ?_, ?_, rfl, rfl, rfl, rfl, ?_, ?_, ?_⟩
  · intro s1 h
    unfold whereFn at h
    repeat' split at h
    all_goals first
      | (simp only [Except.ok.injEq] at h; rw [← h])
      | simp at h
  · intro s1 h
    unfold orFn at h
    repeat' split at h
    all_goals first
      | (simp only [Except.ok.injEq] at h; rw [← h])
      | simp at h
  · intro s1 h
    unfold andFn at h
    repeat' split at h
    all_goals first
      | (simp only [Except.ok.injEq] at h; rw [← h])
      | simp at h
  · intro s1 h
    unfold onFn at h
    repeat' split at h
    all_goals first
      | (simp only [Except.ok.injEq] at h; rw [← h])
      | simp at h
  · intro s1 h
    unfold onOrFn at h
    repeat' split at h
    all_goals first
      | (simp only [Except.ok.injEq] at h; rw [← h])
      | simp at h
  · intro s1 h
    unfold onAndFn at h
    repeat' split at h
    all_goals first
      | (simp only [Except.ok.injEq] at h; rw [← h])
      | simp at h
  · intro s1 h
    unfold innerJoinFn joinArgsFn onFn at h
    repeat' split at h
    all_goals first
      | (simp only [Except.ok.injEq] at h; rw [← h])
      | simp at h
  · intro s1 h
    unfold leftJoinFn joinArgsFn onFn at h
    repeat' split at h
    all_goals first
      | (simp only [Except.ok.injEq] at h; rw [← h])
      | simp at h
  · intro s1 h
    unfold rightJoinFn joinArgsFn onFn at h
    repeat' split at h
    all_goals first
      | (simp only [Except.ok.injEq] at h; rw [← h])
      | simp at h
  · intro h
    simp [getFn, h]
  · intro h1 h2 h3 h4
    simp only [getFn, if_neg h1]
    split
    · rfl
    next hcond =>
      exfalso
      simp [h3, h4] at hcond
      have h2x := h2
      simp only [List.all_eq_false] at h2x
      obtain ⟨x, hx, hnone⟩ := h2x
      simp at hnone
      obtain ⟨y, hy, hyx⟩ := hcond x hx
      exact hnone y hy hyx
  · intro h1 h2
    simp [getFn, h1, h2]

/-- C3 witness: on a handle with a `where` but no `select`, `get` fails
with the no-selection message; with `select("ghost")` over a schema
without that column it fails with the unknown-column message. -/
theorem claim_C3_witness :
    getFn [⟨"name", .null, "NO", "text"⟩] (fun _ => [])
        (selectFn ["ghost"] (freshTQB "tests")) =
      .error (unknownColsMsg "tests", selectFn ["ghost"] (freshTQB "tests")) :=
  ((claim_C3_get_select_guard [⟨"name", .null, "NO", "text"⟩] (fun _ => [])
      (selectFn ["ghost"] (freshTQB "tests")) "tests" [] [] 0).2.2.2.2.2.2.2.2.2.2.2.2.2.2.2.1)
    (by decide) (by decide) (by decide) (by decide)

/-- C8: a `where` call with a valid predicate shape overwrites the whole
cached `WHERE` clause: two successive `where` calls leave exactly the
state of the second alone, also when `and` / `or` predicates were
registered in between; predicates accumulate only through `and` / `or`,
which append to the cached clause. -/
theorem claim_C8_where_overwrite (a1 a2 a3 : List JSArg) (s : TQB) :
    (∀ s1 s2, whereFn a1 s = .ok s1 → whereFn a2 s1 = .ok s2 →
      whereFn a2 s = .ok s2) ∧
    (∀ s1 s2 s3, whereFn a1 s = .ok s1 → andFn a2 s1 = .ok s2 →
      whereFn a3 s2 = .ok s3 → whereFn a3 s = .ok s3) ∧
    (∀ s1 s2 s3, whereFn a1 s = .ok s1 → orFn a2 s1 = .ok s2 →
      whereFn a3 s2 = .ok s3 → whereFn a3 s = .ok s3) ∧
    (∀ w, whereClause a2 = .ok w → s.sql.sqlWhere ≠ "" →
      andFn a2 s = .ok { s with sql := { s.sql with
        sqlWhere := s.sql.sqlWhere ++ " AND " ++ w.drop 6 } } ∧
      orFn a2 s = .ok { s with sql := { s.sql with
        sqlWhere := s.sql.sqlWhere ++ " OR " ++ w.drop 6 } }) := by
  obtain ⟨tn, ⟨cd, cs, cj, co, cw, cor, cde, cli, cre⟩, sc, oc⟩ := s
  refine ⟨?_, ?_, ?_, ?_⟩
  · intro s1 s2 h1 h2
    unfold whereFn at h1 ⊢
    cases hw1 : whereClause a1 with
    | error e => rw [hw1] at h1; simp at h1
    | ok w1 =>
      rw [hw1] at h1
      simp only [Except.ok.injEq] at h1
      subst h1
      cases hw2 : whereClause a2 with
      | error e => unfold whereFn at h2; rw [hw2] at h2; simp at h2
      | ok w2 =>
        unfold whereFn at h2
        rw [hw2] at h2
        exact h2
  · intro s1 s2 s3 h1 h2 h3
    unfold whereFn at h1
    cases hw1 : whereClause a1 with
    | error e => rw [hw1] at h1; simp at h1
    | ok w1 =>
      rw [hw1] at h1
      simp only [Except.ok.injEq] at h1
      subst h1
      unfold andFn at h2
      split at h2
      · simp at h2
      · cases hw2 : whereClause a2 with
        | error e => rw [hw2] at h2; simp at h2
        | ok w2 =>
          rw [hw2] at h2
          simp only [Except.ok.injEq] at h2
          subst h2
          unfold whereFn at h3 ⊢
          cases hw3 : whereClause a3 with
          | error e => rw [hw3] at h3; simp at h3
          | ok w3 => rw [hw3] at h3; exact h3
  · intro s1 s2 s3 h1 h2 h3
    unfold whereFn at h1
    cases hw1 : whereClause a1 with
    | error e => rw [hw1] at h1; simp at h1
    | ok w1 =>
      rw [hw1] at h1
      simp only [Except.ok.injEq] at h1
      subst h1
      unfold orFn at h2
      split at h2
      · simp at h2
      · cases hw2 : whereClause a2 with
        | error e => rw [hw2] at h2; simp at h2
        | ok w2 =>
          rw [hw2] at h2
          simp only [Except.ok.injEq] at h2
          subst h2
          unfold whereFn at h3 ⊢
          cases hw3 : whereClause a3 with
          | error e => rw [hw3] at h3; simp at h3
          | ok w3 => rw [hw3] at h3; exact h3
  · intro w hw hne
    constructor
    · unfold andFn
      rw [if_neg hne, hw]
    · unfold orFn
      rw [if_neg hne, hw]

/-- C8 witness: on a fresh handle, `where(a, 1)` then `where(b, 2)` leaves
exactly the clause state of `where(b, 2)` alone. -/
theorem claim_C8_witness :
    whereFn [.val (.str "b"), .val (.num 2)] (freshTQB "t") =
      .ok { freshTQB "t" with sql := { emptyClauses with sqlWhere := "WHERE b = 2" } } :=
  (claim_C8_where_overwrite [.val (.str "a"), .val (.num 1)]
      [.val (.str "b"), .val (.num 2)] [] (freshTQB "t")).1
    { freshTQB "t" with sql := { emptyClauses with sqlWhere := "WHERE a = 1" } }
    { freshTQB "t" with sql := { emptyClauses with sqlWhere := "WHERE b = 2" } }
    (by decide) (by decide)

/-- C1: on the SQL backend, for a row whose keys are valid identifiers
naming known columns, the insert fails with the missing-mandatory-columns
error exactly when some mandatory column (non-nullable, no default, after
the unsupplied-primary-key exclusion of `#__insert`) is omitted by the row
or supplied with a falsy value; the error is raised before `#__execute`,
so no statement runs and the handle state is unchanged. A row supplying
truthy values for every mandatory column passes the check and the compiled
insert executes. -/
theorem claim_C1_mandatory_insert (primaryKeys : List PKColumn)
    (schemaData : List SchemaColumn) (oracle : Exec) (values : JsObj) (s : TQB)
    (hvalid : (objKeys values).all isValidSQLName = true)
    (hknown : (objKeys values).all
      (((workingSchema primaryKeys schemaData values).map (·.column_name)).contains ·) = true) :
    ((∃ col ∈ mandatoryColumns (workingSchema primaryKeys schemaData values),
        (objKeys values).contains col = false ∨
          truthyOpt (getProp values col) = false) →
      insertFn primaryKeys schemaData oracle values s =
        .error (missingMandatoryMsg
          (mandatoryColumns (workingSchema primaryKeys schemaData values)), s)) ∧
    ((∀ col ∈ mandatoryColumns (workingSchema primaryKeys schemaData values),
        (objKeys values).contains col = true ∧
          truthyOpt (getProp values col) = true) →
      insertFn primaryKeys schemaData oracle values s =
        .ok (execClear oracle s
          (insertSqlString s.tableName (workingSchema primaryKeys schemaData values) values ++
            " " ++ s.sql.sqlReturning))) := by
  constructor
  · rintro ⟨col, hmem, hbad⟩
    have hall : ((mandatoryColumns (workingSchema primaryKeys schemaData values)).all
        fun col => (objKeys values).contains col && truthyOpt (getProp values col)) = false := by
      simp only [List.all_eq_false]
      refine ⟨col, hmem, ?_⟩
      rcases hbad with h | h
      · simp only [h, Bool.false_and]
        simp
      · simp only [h, Bool.and_false]
        simp
    unfold insertFn insertCore
    simp only [validateSQLName, hvalid, if_pos, hknown, hall]
    simp
  · intro hgood
    have hall : ((mandatoryColumns (workingSchema primaryKeys schemaData values)).all
        fun col => (objKeys values).contains col && truthyOpt (getProp values col)) = true := by
      simp only [List.all_eq_true]
      intro col hmem
      rcases hgood col hmem with ⟨h1, h2⟩
      rw [h1, h2]
      rfl
    unfold insertFn insertCore
    simp only [validateSQLName, hvalid, if_pos, hknown, hall]
    simp

/-- C1 witness: over the schema (name non-nullable without default, job
defaulted), a row omitting `name` fails with the missing-mandatory error,
and a row supplying it inserts. -/
theorem claim_C1_witness :
    insertFn []
        [⟨"name", .null, "NO", "character varying"⟩,
          ⟨"job", .str "ch", "YES", "character varying"⟩]
        (fun _ => []) [("job", .str "rat")] (freshTQB "tests") =
      .error (missingMandatoryMsg ["name"], freshTQB "tests") :=
  ((claim_C1_mandatory_insert []
      [⟨"name", .null, "NO", "character varying"⟩,
        ⟨"job", .str "ch", "YES", "character varying"⟩]
      (fun _ => []) [("job", .str "rat")] (freshTQB "tests")
      (by decide) (by decide)).1
    ⟨"name", by decide, by decide⟩)

/-- C9: for every schema column of the working schema, when the inserted
row omits the column or supplies a falsy value for it, the compiled value
tuple carries the schema default in that position, and the statement
`#__insert` returns is built from exactly that tuple. -/
theorem claim_C9_falsy_uses_default (primaryKeys : List PKColumn)
    (schemaData : List SchemaColumn) (values : JsObj) (i : Nat)
    (hi : i < (workingSchema primaryKeys schemaData values).length)
    (hfalsy : truthyOpt (getProp values
      (((workingSchema primaryKeys schemaData values).get ⟨i, hi⟩).column_name)) = false) :
    (insertRowValues (workingSchema primaryKeys schemaData values) values)[i]? =
      some (((workingSchema primaryKeys schemaData values).get ⟨i, hi⟩).column_default) ∧
    ∀ tableName sql sd1 pks,
      insertCore tableName primaryKeys schemaData values = .ok (sql, sd1, pks) →
      sql = insertSqlString tableName (workingSchema primaryKeys schemaData values) values := by
  constructor
  · unfold insertRowValues
    rw [List.getElem?_map, List.getElem?_eq_getElem hi]
    rw [List.get_eq_getElem] at hfalsy ⊢
    simp [jsOr_of_falsy hfalsy]
  · intro tableName sql sd1 pks h
    simp only [insertCore] at h
    split at h
    · simp at h
    · split at h
      · simp at h
      · split at h
        · simp at h
        · simp only [Except.ok.injEq, Prod.mk.injEq] at h
          exact h.1.symm

/-- C9 witness: over a schema with a defaulted `job` column, a row
supplying the empty string for `job` compiles the default into that
position. -/
theorem claim_C9_witness :
    (insertRowValues (workingSchema []
        [⟨"job", .str "chemist", "YES", "character varying"⟩]
        [("job", .str "")]) [("job", .str "")])[0]? =
      some (.str "chemist") :=
  (claim_C9_falsy_uses_default []
      [⟨"job", .str "chemist", "YES", "character varying"⟩]
      [("job", .str "")] 0 (by decide) (by decide)).1

/-- `#__insert` returns the primary keys unchanged, the working schema,
and the statement built from it. -/
theorem insertCore_pks {tableName : String} {primaryKeys : List PKColumn}
    {schemaData : List SchemaColumn} {values : JsObj}
    {a : String} {b : List SchemaColumn} {c : List PKColumn}
    (h : insertCore tableName primaryKeys schemaData values = .ok (a, b, c)) :
    c = primaryKeys ∧ b = workingSchema primaryKeys schemaData values ∧
      a = insertSqlString tableName (workingSchema primaryKeys schemaData values) values := by
  simp only [insertCore] at h
  split at h
  · simp at h
  · split at h
    · simp at h
    · split at h
      · simp at h
      · simp only [Except.ok.injEq, Prod.mk.injEq] at h
        exact ⟨h.2.2.symm, h.2.1.symm, h.1.symm⟩

/-- C2 counterexample: over the schema (primary key `id`; non-key column
`age` with default 18), the row supplies `age` with the falsy value 0.
The code compiles `age = 18` (the schema default) into the
`DO UPDATE SET` clause, while the claim (updates from the incoming row
whenever the row supplies the column) predicts `age = EXCLUDED.age`. -/
theorem claim_C2_counterexample :
    upsertSql "tests" [⟨"id", "integer"⟩]
        [⟨"id", .str "nextval", "NO", "integer"⟩, ⟨"age", .num 18, "YES", "integer"⟩]
        [("id", .num 1), ("age", .num 0)] "" =
      .ok "INSERT INTO tests (id, age) VALUES (1, 18) ON CONFLICT (id) DO UPDATE SET age = 18 " ∧
    upsertSqlClaim "tests" [⟨"id", "integer"⟩]
        [⟨"id", .str "nextval", "NO", "integer"⟩, ⟨"age", .num 18, "YES", "integer"⟩]
        [("id", .num 1), ("age", .num 0)] "" =
      .ok "INSERT INTO tests (id, age) VALUES (1, 18) ON CONFLICT (id) DO UPDATE SET age = EXCLUDED.age " ∧
    upsertSql "tests" [⟨"id", "integer"⟩]
        [⟨"id", .str "nextval", "NO", "integer"⟩, ⟨"age", .num 18, "YES", "integer"⟩]
        [("id", .num 1), ("age", .num 0)] "" ≠
      upsertSqlClaim "tests" [⟨"id", "integer"⟩]
        [⟨"id", .str "nextval", "NO", "integer"⟩, ⟨"age", .num 18, "YES", "integer"⟩]
        [("id", .num 1), ("age", .num 0)] "" :=
  ⟨by decide, by decide, by decide⟩

/-- C2 amended: with no primary key, `upsert` emits exactly the plain
insert operation; otherwise it extends the insert with an `ON CONFLICT`
clause on the first primary-key column whose `SET` list updates each
non-key working-schema column from the incoming row when the row supplies
a TRUTHY value for it, and sets it to the schema default when the row
omits it or supplies a falsy value. -/
theorem claim_C2_amended (primaryKeys : List PKColumn)
    (schemaData : List SchemaColumn) (oracle : Exec) (values : JsObj) (s : TQB) :
    (primaryKeys = [] →
      upsertFn primaryKeys schemaData oracle values s =
        insertFn primaryKeys schemaData oracle values s) ∧
    (∀ pk0 rest, primaryKeys = pk0 :: rest →
      ∀ sqlIns sd1 pks,
        insertCore s.tableName primaryKeys schemaData values = .ok (sqlIns, sd1, pks) →
        upsertSql s.tableName primaryKeys schemaData values s.sql.sqlReturning =
          .ok (sqlIns ++ " ON CONFLICT (" ++ quoteIdent pk0.column_name ++
            ") DO UPDATE SET " ++
            String.intercalate ", " (upsertSetPieces sd1 primaryKeys values) ++
            " " ++ s.sql.sqlReturning)) ∧
    (∀ (sd1 : List SchemaColumn) (i : Nat) (col : SchemaColumn),
      ((sd1.filter fun col2 =>
        !(primaryKeys.map (·.column_name)).contains col2.column_name)[i]? = some col) →
      (upsertSetPieces sd1 primaryKeys values)[i]? =
        some (if truthyOpt (getProp values col.column_name) then
            quoteIdent col.column_name ++ " = EXCLUDED." ++ quoteIdent col.column_name
          else
            quoteIdent col.column_name ++ " = " ++ literal col.column_default)) := by
  refine ⟨?_, ?_, ?_⟩
  · intro hpk
    subst hpk
    unfold upsertFn insertFn upsertSql
    cases hcore : insertCore s.tableName [] schemaData values with
    | error e => rfl
    | ok triple =>
      obtain ⟨a, b, c⟩ := triple
      obtain ⟨hc, -, -⟩ := insertCore_pks hcore
      subst hc
      rfl
  · intro pk0 rest hpk sqlIns sd1 pks hcore
    obtain ⟨hc, -, -⟩ := insertCore_pks hcore
    unfold upsertSql
    rw [hcore, hc, hpk]
  · intro sd1 i col h
    simp only [upsertSetPieces]
    rw [List.getElem?_map, h]
    rfl

/-- C2 witness (amended claim): with no primary key, a concrete upsert
emits exactly the insert operation. -/
theorem claim_C2_witness :
    upsertFn [] [⟨"name", .null, "NO", "text"⟩] (fun _ => [])
        [("name", .str "M")] (freshTQB "tests") =
      insertFn [] [⟨"name", .null, "NO", "text"⟩] (fun _ => [])
        [("name", .str "M")] (freshTQB "tests") :=
  (claim_C2_amended [] [⟨"name", .null, "NO", "text"⟩] (fun _ => [])
      [("name", .str "M")] (freshTQB "tests")).1 rfl

/-- On the flat-file backend, `desc()` exactly reverses what the same
chain returns without it: the pipeline before the reversal is identical. -/
theorem csvGet_desc_reverse (b : CSVBuilder) (f : CSVFile)
    (h : b.descFlag = false) :
    csvGet (csvDesc b) f = (csvGet b f).reverse := by
  obtain ⟨tn, sc, wc, oc, rc, df, ac⟩ := b
  cases df
  · rfl
  · simp at h

/-- C5 counterexample: two stored rows tied on the order column (value
`1` in column `c`, distinct payloads). Under the modelled server (a
deterministic stable sort, the only part of the claim outside this
repository), the reversed ascending result swaps the tied rows while the
descending result keeps their stored order, so the claimed equality fails
on the SQL backend. -/
theorem claim_C5_counterexample :
    (serverOrderEval [[("c", "1"), ("x", "a")], [("c", "1"), ("x", "b")]]
        "c" false).reverse ≠
      serverOrderEval [[("c", "1"), ("x", "a")], [("c", "1"), ("x", "b")]]
        "c" true := by
  decide

/-- C5 amended: on the flat-file backend the symmetry holds for every
table file and order column; on the SQL backend the two chains compile
the same statement up to the trailing `DESC` (shown on the concrete
scenario table), the compiled chain executes, and under the modelled
server the reversed ascending rows equal the descending rows whenever
the order column takes pairwise distinct values. -/
theorem claim_C5_amended (t : String) (f : CSVFile) (c : String)
    (tbl : List CsvRow)
    (hnd : tbl.Pairwise fun a b => serverKey c a ≠ serverKey c b) :
    csvGet (csvDesc (csvOrderBy [c] (csvSelect [] (freshCSV t)))) f =
      (csvGet (csvOrderBy [c] (csvSelect [] (freshCSV t))) f).reverse ∧
    getSqlString (orderByFn ["age"] (selectFn [] (freshTQB "tests"))) =
      "SELECT * FROM tests ORDER BY age;" ∧
    getSqlString (descFn (orderByFn ["age"] (selectFn [] (freshTQB "tests")))) =
      "SELECT * FROM tests ORDER BY age DESC;" ∧
    (∀ (sd : List SchemaColumn) (oracle : Exec),
      getFn sd oracle (descFn (orderByFn ["age"] (selectFn [] (freshTQB "tests")))) =
        .ok (execClear oracle
          (descFn (orderByFn ["age"] (selectFn [] (freshTQB "tests"))))
          "SELECT * FROM tests ORDER BY age DESC;")) ∧
    (serverOrderEval tbl c false).reverse = serverOrderEval tbl c true := by
  refine ⟨?_, by decide, by decide, ?_, ?_⟩
  · exact csvGet_desc_reverse _ f rfl
  · intro sd oracle
    have hs : getSqlString (descFn (orderByFn ["age"] (selectFn [] (freshTQB "tests")))) =
        "SELECT * FROM tests ORDER BY age DESC;" := by decide
    rw [← hs]
    have hstar : ((descFn (orderByFn ["age"] (selectFn [] (freshTQB "tests")))).selectCols.head?
        != some "*") = false := by decide
    unfold getFn
    rw [if_neg (by decide), hstar]
    simp
  · exact reverse_serverAsc_eq_serverDesc c tbl hnd

/-- C5 witness (amended claim): instantiated on a one-column file and a
two-row stored table with distinct order-column values. -/
theorem claim_C5_witness :
    csvGet (csvDesc (csvOrderBy ["c"] (csvSelect [] (freshCSV "t"))))
        ⟨["c"], [["2"], ["1"]]⟩ =
      (csvGet (csvOrderBy ["c"] (csvSelect [] (freshCSV "t")))
        ⟨["c"], [["2"], ["1"]]⟩).reverse ∧
    getSqlString (orderByFn ["age"] (selectFn [] (freshTQB "tests"))) =
      "SELECT * FROM tests ORDER BY age;" ∧
    getSqlString (descFn (orderByFn ["age"] (selectFn [] (freshTQB "tests")))) =
      "SELECT * FROM tests ORDER BY age DESC;" ∧
    (∀ (sd : List SchemaColumn) (oracle : Exec),
      getFn sd oracle (descFn (orderByFn ["age"] (selectFn [] (freshTQB "tests")))) =
        .ok (execClear oracle
          (descFn (orderByFn ["age"] (selectFn [] (freshTQB "tests"))))
          "SELECT * FROM tests ORDER BY age DESC;")) ∧
    (serverOrderEval [[("c", "1")], [("c", "2")]] "c" false).reverse =
      serverOrderEval [[("c", "1")], [("c", "2")]] "c" true :=
  claim_C5_amended "t" ⟨["c"], [["2"], ["1"]]⟩ "c"
    [[("c", "1")], [("c", "2")]] (by decide)

/-- `get` resets the clause cache when it executes. -/
theorem getFn_reset {sd : List SchemaColumn} {oracle : Exec} {s s1 : TQB}
    {r : List JsObj} (h : getFn sd oracle s = .ok (s1, r)) :
    s1.sql = emptyClauses := by
  simp only [getFn] at h
  split at h
  · simp at h
  · split at h
    · simp at h
    · simp only [execClear, Except.ok.injEq, Prod.mk.injEq] at h
      rw [← h.1]

/-- `delete` resets the clause cache. -/
theorem deleteFn_reset {oracle : Exec} {s s1 : TQB} {r : List JsObj}
    (h : deleteFn oracle s = .ok (s1, r)) : s1.sql = emptyClauses := by
  simp only [deleteFn, execClear, Except.ok.injEq, Prod.mk.injEq] at h
  rw [← h.1]

/-- `insert` resets the clause cache when it executes. -/
theorem insertFn_reset {pks : List PKColumn} {sd : List SchemaColumn}
    {oracle : Exec} {v : JsObj} {s s1 : TQB} {r : List JsObj}
    (h : insertFn pks sd oracle v s = .ok (s1, r)) : s1.sql = emptyClauses := by
  simp only [insertFn] at h
  split at h
  · simp at h
  · simp only [execClear, Except.ok.injEq, Prod.mk.injEq] at h
    rw [← h.1]

/-- `update` resets the clause cache. -/
theorem updateFn_reset {oracle : Exec} {v : JsObj} {s s1 : TQB} {r : List JsObj}
    (h : updateFn oracle v s = .ok (s1, r)) : s1.sql = emptyClauses := by
  simp only [updateFn, execClear, Except.ok.injEq, Prod.mk.injEq] at h
  rw [← h.1]

/-- `upsert` resets the clause cache when it executes. -/
theorem upsertFn_reset {pks : List PKColumn} {sd : List SchemaColumn}
    {oracle : Exec} {v : JsObj} {s s1 : TQB} {r : List JsObj}
    (h : upsertFn pks sd oracle v s = .ok (s1, r)) : s1.sql = emptyClauses := by
  simp only [upsertFn] at h
  split at h
  · simp at h
  · simp only [execClear, Except.ok.injEq, Prod.mk.injEq] at h
    rw [← h.1]

/-- `add` resets the clause cache when it executes. -/
theorem addFn_reset {sd : List SchemaColumn} {oracle : Exec} {cd : ColumnData}
    {s s1 : TQB} {r : List JsObj}
    (h : addFn sd oracle cd s = .ok (s1, r)) : s1.sql = emptyClauses := by
  simp only [addFn] at h
  split at h
  · simp at h
  · split at h
    · simp at h
    · split at h
      · simp at h
      · simp only [execClear, Except.ok.injEq, Prod.mk.injEq] at h
        rw [← h.1]

/-- `modify` resets the clause cache when it executes. -/
theorem modifyFn_reset {sd : List SchemaColumn} {oracle : Exec}
    {cd : ColumnData} {s s1 : TQB} {r : List JsObj}
    (h : modifyFn sd oracle cd s = .ok (s1, r)) : s1.sql = emptyClauses := by
  simp only [modifyFn] at h
  repeat' split at h
  all_goals first
    | (simp only [execClear, Except.ok.injEq, Prod.mk.injEq] at h
       rw [← h.1])
    | simp at h

/-- `rename` resets the clause cache when it executes. -/
theorem renameFn_reset {sd : List SchemaColumn} {oracle : Exec}
    {o n : String} {s s1 : TQB} {r : List JsObj}
    (h : renameFn sd oracle o n s = .ok (s1, r)) : s1.sql = emptyClauses := by
  simp only [renameFn] at h
  repeat' split at h
  all_goals first
    | (simp only [execClear, Except.ok.injEq, Prod.mk.injEq] at h
       rw [← h.1])
    | simp at h

/-- `del` resets the clause cache when it executes. -/
theorem delFn_reset {sd : List SchemaColumn} {oracle : Exec}
    {c : String} {s s1 : TQB} {r : List JsObj}
    (h : delFn sd oracle c s = .ok (s1, r)) : s1.sql = emptyClauses := by
  simp only [delFn] at h
  repeat' split at h
  all_goals first
    | (simp only [execClear, Except.ok.injEq, Prod.mk.injEq] at h
       rw [← h.1])
    | simp at h

/-- `count` resets the clause cache when it executes. -/
theorem countFn_reset {oracle : Exec} {c : Option String} {s s1 : TQB}
    {v : Option Int} (h : countFn oracle c s = .ok (s1, v)) :
    s1.sql = emptyClauses := by
  simp only [countFn, aggIntRun, execClear] at h
  repeat' split at h
  all_goals first
    | (simp only [execClear, Except.ok.injEq, Prod.mk.injEq] at h
       rw [← h.1])
    | simp at h

/-- `sum` resets the clause cache when it executes. -/
theorem sumFn_reset {oracle : Exec} {c : String} {s s1 : TQB}
    {v : Option Int} (h : sumFn oracle c s = .ok (s1, v)) :
    s1.sql = emptyClauses := by
  simp only [sumFn, aggIntRun, execClear] at h
  repeat' split at h
  all_goals first
    | (simp only [execClear, Except.ok.injEq, Prod.mk.injEq] at h
       rw [← h.1])
    | simp at h

/-- `avg` resets the clause cache when it executes. -/
theorem avgFn_reset {oracle : Exec} {c : String} {p : Option Int} {s s1 : TQB}
    {v : Option Int} (h : avgFn oracle c p s = .ok (s1, v)) :
    s1.sql = emptyClauses := by
  simp only [avgFn, aggIntRun, execClear] at h
  repeat' split at h
  all_goals first
    | (simp only [execClear, Except.ok.injEq, Prod.mk.injEq] at h
       rw [← h.1])
    | simp at h

/-- `min` resets the clause cache when it executes. -/
theorem minFn_reset {oracle : Exec} {c : String} {s s1 : TQB}
    {v : Option JSVal} (h : minFn oracle c s = .ok (s1, v)) :
    s1.sql = emptyClauses := by
  simp only [minFn, minMaxRun, execClear] at h
  repeat' split at h
  all_goals first
    | (simp only [execClear, Except.ok.injEq, Prod.mk.injEq] at h
       rw [← h.1])
    | simp at h

/-- `max` resets the clause cache when it executes. -/
theorem maxFn_reset {oracle : Exec} {c : String} {s s1 : TQB}
    {v : Option JSVal} (h : maxFn oracle c s = .ok (s1, v)) :
    s1.sql = emptyClauses := by
  simp only [maxFn, minMaxRun, execClear] at h
  repeat' split at h
  all_goals first
    | (simp only [execClear, Except.ok.injEq, Prod.mk.injEq] at h
       rw [← h.1])
    | simp at h

/-- `update` of the flat-file backend returns the builder unchanged. -/
theorem csvUpdate_keeps {b : CSVBuilder} {f : CSVFile} {v : CsvRow}
    {out : CSVBuilder × CSVFile × Option (List CsvRow)}
    (h : csvUpdate b f v = .ok out) : out.1 = b := by
  simp only [csvUpdate] at h
  split at h
  · simp at h
  · simp only [Except.ok.injEq] at h
    rw [← h]

/-- `addColumns` of the flat-file backend returns the builder unchanged. -/
theorem csvAddColumns_keeps {b : CSVBuilder} {f : CSVFile}
    {out : CSVBuilder × CSVFile} (h : csvAddColumns b f = .ok out) :
    out.1 = b := by
  simp only [csvAddColumns] at h
  repeat' split at h
  all_goals first
    | (simp only [Except.ok.injEq] at h
       rw [← h])
    | simp at h

/-- `removeColumns` of the flat-file backend returns the builder
unchanged. -/
theorem csvRemoveColumns_keeps {b : CSVBuilder} {f : CSVFile}
    {out : CSVBuilder × CSVFile} (h : csvRemoveColumns b f = .ok out) :
    out.1 = b := by
  simp only [csvRemoveColumns] at h
  repeat' split at h
  all_goals first
    | (simp only [Except.ok.injEq] at h
       rw [← h])
    | simp at h

/-- C7 counterexample: a terminal call that fails its pre-execution
validation does NOT reset the clause cache: after `where("age", 30)` the
`get()` call fails (no `select`) and the cached `WHERE` entry is still
non-empty, refuting the claim as stated over every terminal call. -/
theorem claim_C7_counterexample :
    whereFn [.val (.str "age"), .val (.num 30)] (freshTQB "tests") =
      .ok { freshTQB "tests" with
        sql := { emptyClauses with sqlWhere := "WHERE age = 30" } } ∧
    getFn [] (fun _ => [])
        { freshTQB "tests" with
          sql := { emptyClauses with sqlWhere := "WHERE age = 30" } } =
      .error (noSelectMsg,
        { freshTQB "tests" with
          sql := { emptyClauses with sqlWhere := "WHERE age = 30" } }) ∧
    ({ emptyClauses with sqlWhere := "WHERE age = 30" } : SqlClauses) ≠
      emptyClauses :=
  ⟨by decide, by decide, by decide⟩

/-- C7 amended: every SQL terminal call that reaches execution (returns
rather than failing a pre-execution check) leaves every entry of the
clause cache empty, `#__execute` having cleared it; and no flat-file
terminal call resets the accumulated builder state. -/
theorem claim_C7_amended :
    (∀ (sd : List SchemaColumn) (oracle : Exec) (s s1 : TQB) (r : List JsObj),
      getFn sd oracle s = .ok (s1, r) → s1.sql = emptyClauses) ∧
    (∀ (oracle : Exec) (s s1 : TQB) (r : List JsObj),
      deleteFn oracle s = .ok (s1, r) → s1.sql = emptyClauses) ∧
    (∀ (pks : List PKColumn) (sd : List SchemaColumn) (oracle : Exec)
        (v : JsObj) (s s1 : TQB) (r : List JsObj),
      insertFn pks sd oracle v s = .ok (s1, r) → s1.sql = emptyClauses) ∧
    (∀ (oracle : Exec) (v : JsObj) (s s1 : TQB) (r : List JsObj),
      updateFn oracle v s = .ok (s1, r) → s1.sql = emptyClauses) ∧
    (∀ (pks : List PKColumn) (sd : List SchemaColumn) (oracle : Exec)
        (v : JsObj) (s s1 : TQB) (r : List JsObj),
      upsertFn pks sd oracle v s = .ok (s1, r) → s1.sql = emptyClauses) ∧
    (∀ (sd : List SchemaColumn) (oracle : Exec) (cd : ColumnData)
        (s s1 : TQB) (r : List JsObj),
      addFn sd oracle cd s = .ok (s1, r) → s1.sql = emptyClauses) ∧
    (∀ (sd : List SchemaColumn) (oracle : Exec) (cd : ColumnData)
        (s s1 : TQB) (r : List JsObj),
      modifyFn sd oracle cd s = .ok (s1, r) → s1.sql = emptyClauses) ∧
    (∀ (sd : List SchemaColumn) (oracle : Exec) (o n : String)
        (s s1 : TQB) (r : List JsObj),
      renameFn sd oracle o n s = .ok (s1, r) → s1.sql = emptyClauses) ∧
    (∀ (sd : List SchemaColumn) (oracle : Exec) (c : String)
        (s s1 : TQB) (r : List JsObj),
      delFn sd oracle c s = .ok (s1, r) → s1.sql = emptyClauses) ∧
    (∀ (oracle : Exec) (c : Option String) (s s1 : TQB) (v : Option Int),
      countFn oracle c s = .ok (s1, v) → s1.sql = emptyClauses) ∧
    (∀ (oracle : Exec) (c : String) (s s1 : TQB) (v : Option Int),
      sumFn oracle c s = .ok (s1, v) → s1.sql = emptyClauses) ∧
    (∀ (oracle : Exec) (c : String) (p : Option Int) (s s1 : TQB)
        (v : Option Int),
      avgFn oracle c p s = .ok (s1, v) → s1.sql = emptyClauses) ∧
    (∀ (oracle : Exec) (c : String) (s s1 : TQB) (v : Option JSVal),
      minFn oracle c s = .ok (s1, v) → s1.sql = emptyClauses) ∧
    (∀ (oracle : Exec) (c : String) (s s1 : TQB) (v : Option JSVal),
      maxFn oracle c s = .ok (s1, v) → s1.sql = emptyClauses) ∧
    (∀ (b : CSVBuilder) (f : CSVFile), (csvDelete b f).1 = b) ∧
    (∀ (b : CSVBuilder) (f : CSVFile) (v : List CsvRow),
      (csvInsert b f v).1 = b) ∧
    (∀ (b : CSVBuilder) (f : CSVFile) (v : CsvRow)
        (out : CSVBuilder × CSVFile × Option (List CsvRow)),
      csvUpdate b f v = .ok out → out.1 = b) ∧
    (∀ (b : CSVBuilder) (f : CSVFile) (out : CSVBuilder × CSVFile),
      csvAddColumns b f = .ok out → out.1 = b) ∧
    (∀ (b : CSVBuilder) (f : CSVFile) (out : CSVBuilder × CSVFile),
      csvRemoveColumns b f = .ok out → out.1 = b) ∧
    (∀ (b : CSVBuilder) (f : CSVFile), (csvCount b f).1 = b) ∧
    (∀ (b : CSVBuilder) (f : CSVFile), (csvFirst b f).1 = b) ∧
    (∀ (b : CSVBuilder) (f : CSVFile), (csvLast b f).1 = b) :=
  ⟨fun _ _ _ _ _ h => getFn_reset h,
   fun _ _ _ _ h => deleteFn_reset h,
   fun _ _ _ _ _ _ _ h => insertFn_reset h,
   fun _ _ _ _ _ h => updateFn_reset h,
   fun _ _ _ _ _ _ _ h => upsertFn_reset h,
   fun _ _ _ _ _ _ h => addFn_reset h,
   fun _ _ _ _ _ _ h => modifyFn_reset h,
   fun _ _ _ _ _ _ _ h => renameFn_reset h,
   fun _ _ _ _ _ _ h => delFn_reset h,
   fun _ _ _ _ _ h => countFn_reset h,
   fun _ _ _ _ _ h => sumFn_reset h,
   fun _ _ _ _ _ _ h => avgFn_reset h,
   fun _ _ _ _ _ h => minFn_reset h,
   fun _ _ _ _ _ h => maxFn_reset h,
   fun _ _ => rfl,
   fun _ _ _ => rfl,
   fun _ _ _ _ h => csvUpdate_keeps h,
   fun _ _ _ h => csvAddColumns_keeps h,
   fun _ _ _ h => csvRemoveColumns_keeps h,
   fun _ _ => rfl,
   fun _ _ => rfl,
   fun _ _ => rfl⟩

/-- C7 witness (amended claim): a concrete executing `get` leaves the
clause cache empty. -/
theorem claim_C7_witness :
    (⟨"t", emptyClauses, ["*"], []⟩ : TQB).sql = emptyClauses :=
  claim_C7_amended.1 [] (fun _ => []) (selectFn [] (freshTQB "t"))
    ⟨"t", emptyClauses, ["*"], []⟩ [] (by decide)
